import Mathlib

set_option autoImplicit false

/-!
# Verification of the OpenPhase sparse multi-phase-field core

This development shallowly embeds the per-cell data structures and the
per-cell algorithms of the OpenPhase phase-field library and proves (or
refutes) the specification's claims about them.

Machine `double` values are modelled as exact rationals (`ℚ`), with the
machine constants `DBL_EPSILON = 2^-52` and `FLT_EPSILON = 2^-23` kept as
explicit thresholds wherever the source compares against them.

The per-cell algorithms (`PhaseField::NormalizeIncrementsSR`,
`PhaseField::MergeIncrementsSR`, `PhaseField::CalculateGrainsVolume`,
`DrivingForce::MaxTimeStep`, the `Temperature::SetInitial` boundary loops)
are translated from the repository sources.  The sparse per-cell container
primitives (`NodePF` / `NodeAB` member functions) are declared in headers
that are not part of the source tree; those primitives are modelled from
the specification's data-model section, as noted on each definition.
-/

namespace OpenPhase

/-- `DBL_EPSILON` of IEEE-754 binary64, as an exact rational. -/
def DBL_EPSILON : ℚ := 1 / 2 ^ 52

/-- `FLT_EPSILON` of IEEE-754 binary32, as an exact rational; the
precision threshold of the plausibility check in
`PhaseField::NormalizeIncrementsSR`. -/
def FLT_EPSILON : ℚ := 1 / 2 ^ 23

/-- Modelled from the spec: one entry of the sparse Active-Set Node: a
region index and its fractional occupancy value.  The node's gradient and
Laplacian fields play no role in the claims and are omitted.  (The header
declaring the node class is not in the source tree.) -/
structure Entry where
  index : ℕ
  value : ℚ
deriving Repr, DecidableEq

/-- Modelled from the spec: the sparse Active-Set Node, an ordered
variable-length list of entries. -/
abbrev NodePF := List Entry

/-- Modelled from the spec: `get_value(index)` returns 0 for absent
indices (total function, no error). -/
def get_value (n : NodePF) (idx : ℕ) : ℚ :=
  match n with
  | [] => 0
  | e :: rest => if e.index = idx then e.value else get_value rest idx

/-- Modelled from the spec: `add_value(index, delta)` inserts or updates
an entry, creating it with value 0 if absent. -/
def add_value (n : NodePF) (idx : ℕ) (v : ℚ) : NodePF :=
  match n with
  | [] => [⟨idx, v⟩]
  | e :: rest =>
      if e.index = idx then ⟨e.index, e.value + v⟩ :: rest
      else e :: add_value rest idx v

/-- Sum of the occupancy values of a node's entries. -/
def nodeSum (n : NodePF) : ℚ := (n.map Entry.value).sum

/-- Modelled from the spec: `finalize()` removes entries whose value has
magnitude below machine epsilon.  (The implicit reserved background index
of the spec is not modelled; no claim depends on it.) -/
def finalize (n : NodePF) : NodePF :=
  n.filter (fun e => DBL_EPSILON ≤ |e.value|)

/-- Scale every occupancy value of a node (the node `*=` operator used by
`PhaseField::Coarsen`). -/
def scaleNode (n : NodePF) (c : ℚ) : NodePF :=
  n.map (fun e => ⟨e.index, e.value * c⟩)

/-- Add every entry of `m` into `n` via `add_value` (the node `+=`
operator used by `PhaseField::Coarsen`). -/
def nodePlus (n m : NodePF) : NodePF :=
  m.foldl (fun acc e => add_value acc e.index e.value) n

/-- One record of the Pairwise Increment Store: two region indices and
the two independently tracked rate contributions.  A positive value moves
occupancy from `indexB` into `indexA` (antisymmetric). -/
structure PairRec where
  indexA : ℕ
  indexB : ℕ
  value1 : ℚ
  value2 : ℚ
deriving Repr, DecidableEq

/-- The per-cell Pairwise Increment Store (`FieldsDot(i,j,k)`). -/
abbrev Store := List PairRec

/-- Modelled from the spec: `get_asym1(a,b)` reads the `value1`
contribution of the record for the pair `{a,b}`, negated when the record
is stored with the opposite orientation, and 0 when absent. -/
def get_asym1 (s : Store) (a b : ℕ) : ℚ :=
  match s with
  | [] => 0
  | r :: rest =>
      if r.indexA = a ∧ r.indexB = b then r.value1
      else if r.indexA = b ∧ r.indexB = a then -r.value1
      else get_asym1 rest a b

/-- Modelled from the spec: `get_asym2(a,b)`, as `get_asym1` but for the
`value2` contribution. -/
def get_asym2 (s : Store) (a b : ℕ) : ℚ :=
  match s with
  | [] => 0
  | r :: rest =>
      if r.indexA = a ∧ r.indexB = b then r.value2
      else if r.indexA = b ∧ r.indexB = a then -r.value2
      else get_asym2 rest a b

/-- Modelled from the spec: `set_sym_pair(a,b,v1,v2)` overwrites both
contributions of every record for the unordered pair `{a,b}`. -/
def set_sym_pair (s : Store) (a b : ℕ) (v1 v2 : ℚ) : Store :=
  s.map (fun r =>
    if (r.indexA = a ∧ r.indexB = b) ∨ (r.indexA = b ∧ r.indexB = a)
    then { r with value1 := v1, value2 := v2 } else r)

/-- Modelled from the spec: the store `*=` operator, scaling the whole of
every record ("scale the whole record by `norm`"). -/
def scaleStore (s : Store) (c : ℚ) : Store :=
  s.map (fun r => { r with value1 := r.value1 * c, value2 := r.value2 * c })

/-! ## `PhaseField::NormalizeIncrementsSR` — per-cell normalization

Translation of the per-cell body of `PhaseField::NormalizeIncrementsSR`
(the function limits phase-field increments so that the phase-field
values stay within their natural limits 0 and 1).  The grid loop applies
this body independently to every wide-interface cell; the embedding works
on one cell's node and store. -/

/-- The per-region net increment `dPsiAlpha` of the out-of-bounds
pre-check: the sum over all other regions present in the cell of both
tracked contributions for the pair. -/
def dPsiAlpha (s : Store) (fields : NodePF) (alpha : Entry) : ℚ :=
  (fields.map (fun beta =>
    if beta.index = alpha.index then 0
    else get_asym1 s alpha.index beta.index + get_asym2 s alpha.index beta.index)).sum

/-- The "set out-of-bounds sets to zero" pre-pass: sequentially over the
cell's regions, if a region sits at a bound and its net increment pushes
it further out, every record touching that region is zeroed. -/
def pinOutOfBounds (fields : NodePF) (s : Store) : Store :=
  fields.foldl
    (fun st alpha =>
      let d := dPsiAlpha st fields alpha
      if (alpha.value = 0 ∧ d < 0) ∨ (alpha.value = 1 ∧ 0 < d) then
        fields.foldl
          (fun st2 beta =>
            if beta.index = alpha.index then st2
            else set_sym_pair st2 alpha.index beta.index 0 0)
          st
      else st)
    s

/-- Remove records whose two contributions are both exactly zero
("Remove zero-sets from the storage"). -/
def eraseZeroRecords (s : Store) : Store :=
  s.filter (fun r => ¬(r.value1 = 0 ∧ r.value2 = 0))

/-- Total positive `value1` increment collected for a region in one
iteration of the limiting loop (`locIncrements`, `sym1` slot). -/
def posInc (s : Store) (idx : ℕ) : ℚ :=
  (s.map (fun r =>
    (if 0 < r.value1 ∧ r.indexA = idx then r.value1 else 0) +
    (if r.value1 < 0 ∧ r.indexB = idx then -r.value1 else 0))).sum

/-- Total negative `value1` increment collected for a region in one
iteration of the limiting loop (`locIncrements`, `sym2` slot). -/
def negInc (s : Store) (idx : ℕ) : ℚ :=
  (s.map (fun r =>
    (if r.value1 < 0 ∧ r.indexA = idx then r.value1 else 0) +
    (if 0 < r.value1 ∧ r.indexB = idx then -r.value1 else 0))).sum

/-- The two per-region scale factors of one limiting iteration
(`locLimits`): the first component guards the upper bound (`sym1` slot),
the second the lower bound (`sym2` slot); each is 1 unless the collected
increments would push the region's value out of `[0,1]`. -/
def limitsEntry (e : Entry) (p n dt : ℚ) : ℕ × ℚ × ℚ :=
  (e.index,
   if 1 < e.value + (p + n) * dt then min 1 ((1 - (e.value + n * dt)) / (p * dt)) else 1,
   if e.value + (p + n) * dt < 0 then min 1 (-(e.value + p * dt) / (n * dt)) else 1)

/-- The per-region limits table of one limiting iteration, one triple
`(index, upper-bound factor, lower-bound factor)` per region present in
the cell. -/
def regionLimits (fields : NodePF) (s : Store) (dt : ℚ) : List (ℕ × ℚ × ℚ) :=
  fields.map (fun e => limitsEntry e (posInc s e.index) (negInc s e.index) dt)

/-- Upper-bound factor lookup in the limits table; absent regions read
the store's zero default. -/
def getLimPos (l : List (ℕ × ℚ × ℚ)) (idx : ℕ) : ℚ :=
  match l with
  | [] => 0
  | t :: rest => if t.1 = idx then t.2.1 else getLimPos rest idx

/-- Lower-bound factor lookup in the limits table; absent regions read
the store's zero default. -/
def getLimNeg (l : List (ℕ × ℚ × ℚ)) (idx : ℕ) : ℚ :=
  match l with
  | [] => 0
  | t :: rest => if t.1 = idx then t.2.2 else getLimNeg rest idx

/-- Scale every record's `value1` by the minimum of its two endpoints'
factors from the limits table; the Boolean reports whether any record
needed further scaling (`LimitingNeeded`). -/
def applyLimits (lims : List (ℕ × ℚ × ℚ)) (s : Store) : Store × Bool :=
  let upd : List (PairRec × Bool) := s.map (fun r =>
    if r.value1 < 0 then
      let lim := min (getLimNeg lims r.indexA) (getLimPos lims r.indexB)
      ({ r with value1 := r.value1 * lim }, if lim < 1 then true else false)
    else if 0 < r.value1 then
      let lim := min (getLimPos lims r.indexA) (getLimNeg lims r.indexB)
      ({ r with value1 := r.value1 * lim }, if lim < 1 then true else false)
    else (r, false))
  (upd.map Prod.fst, upd.any Prod.snd)

/-- One iteration of the limiting loop: collect the per-region limits
table, then limit every record by it. -/
def limitIter (fields : NodePF) (dt : ℚ) (s : Store) : Store × Bool :=
  applyLimits (regionLimits fields s dt) s

/-- The iterative limiting loop.  The source loops while `LimitingNeeded`
holds, incrementing `number_of_iterations` at the head of each pass and
forcing an exit once `number_of_iterations > 24`; here the remaining
iteration allowance is the fuel, so `limitLoop fields dt 24 s` is the
source's loop.  Returns the limited store and the number of passes. -/
def limitLoop (fields : NodePF) (dt : ℚ) : ℕ → Store → Store × ℕ
  | 0, s => ((limitIter fields dt s).1, 1)
  | fuel + 1, s =>
      let p := limitIter fields dt s
      if p.2 then
        let q := limitLoop fields dt fuel p.1
        (q.1, q.2 + 1)
      else (p.1, 1)

/-- "Clean up values which are too small": drop records whose scaled
`value1` increment over the step falls below machine epsilon. -/
def cleanupSmall (dt : ℚ) (s : Store) : Store :=
  s.filter (fun r => DBL_EPSILON ≤ |r.value1 * dt|)

/-- Scratch application of the surviving `value1` contributions to a copy
of the node, as done by the plausibility check (and, with both
contributions, by the merge). -/
def applyValue1 (fields : NodePF) (s : Store) (dt : ℚ) : NodePF :=
  s.foldl
    (fun f r =>
      if r.value1 = 0 then f
      else add_value (add_value f r.indexA (r.value1 * dt)) r.indexB (-(r.value1 * dt)))
    fields

/-- Number of warnings the plausibility check emits for this cell: one
per region whose simulated value leaves `[-FLT_EPSILON, 1 + FLT_EPSILON]`. -/
def warnCount (fields : NodePF) (s : Store) (dt : ℚ) : ℕ :=
  ((applyValue1 fields s dt).filter
    (fun e => e.value < -FLT_EPSILON ∨ 1 + FLT_EPSILON < e.value)).length

/-- Result of normalizing one cell: the scaled store, the number of
limiting-loop passes executed, and the number of plausibility warnings. -/
structure NormResult where
  store : Store
  iters : ℕ
  warns : ℕ
deriving Repr, DecidableEq

/-- The `default` (≥ 2 pairs) branch of `PhaseField::NormalizeIncrementsSR`:
out-of-bounds pre-pass, removal of zeroed records, the iterative limiting
loop, small-increment cleanup, and the plausibility check. -/
def generalPath (fields : NodePF) (dt : ℚ) (s : Store) : NormResult :=
  let s1 := eraseZeroRecords (pinOutOfBounds fields s)
  if s1.isEmpty then ⟨s1, 0, 0⟩
  else
    let p := limitLoop fields dt 24 s1
    let s3 := cleanupSmall dt p.1
    ⟨s3, p.2, warnCount fields s3 dt⟩

/-- The `case 1` single-pair fast path of `PhaseField::NormalizeIncrementsSR`:
combine the record's two contributions, clear the store when the leading
region already sits at the bound it is pushed against, otherwise scale
the whole record so the new value lands inside `[0,1]`. -/
def fastPath (fields : NodePF) (dt : ℚ) (r : PairRec) : Store :=
  let old := get_value fields r.indexA
  let valueA := (r.value1 + r.value2) * dt
  if (old = 0 ∧ valueA < 0) ∨ (old = 1 ∧ 0 < valueA) then []
  else
    let newValue := old + valueA
    let norm : ℚ :=
      if newValue < 0 then -old / valueA
      else if 1 < newValue then (1 - old) / valueA
      else 1
    if DBL_EPSILON < norm then scaleStore [r] norm else []

/-- Per-cell body of `PhaseField::NormalizeIncrementsSR`, dispatching on
the store's size exactly as the source's `switch`. -/
def normalizeNode (fields : NodePF) (dt : ℚ) (s : Store) : NormResult :=
  match s with
  | [] => ⟨s, 0, 0⟩
  | [r] => ⟨fastPath fields dt r, 0, 0⟩
  | _ => generalPath fields dt s

/-! ## `PhaseField::MergeIncrementsSR` — per-cell merge

Per-cell body of `PhaseField::MergeIncrementsSR`: both tracked
contributions of every record, scaled by the time step and by the
pairwise damping factor, are added to one end of the pair and subtracted
from the other.  The damping factor is 1 unless both endpoints carry an
active growth-constraint violation; it is passed here as a function of
the two region indices. -/

/-- Per-cell body of `PhaseField::MergeIncrementsSR`. -/
def mergeNode (factor : ℕ → ℕ → ℚ) (fields : NodePF) (s : Store) (dt : ℚ) : NodePF :=
  s.foldl
    (fun f r =>
      let v := factor r.indexA r.indexB * (r.value1 + r.value2) * dt
      if DBL_EPSILON ≤ |v| then add_value (add_value f r.indexA v) r.indexB (-v)
      else f)
    fields

/-! ## `DrivingForce::MaxTimeStep` -/

/-- `DrivingForce::MaxTimeStep`: the minimum of the theoretical stability
limit `TheorLimit * IP.ReportMaximumTimeStep()` and the numerical limit,
which stays at its default `0.0` unless the recorded maximum phase-field
increment exceeds `DBL_EPSILON`. -/
def MaxTimeStep (TheorLimit RefMaxStep NumerLimit maxPsi : ℚ) : ℚ :=
  let maxTheorTimeStep := TheorLimit * RefMaxStep
  let maxNumerTimeStep := if DBL_EPSILON < maxPsi then NumerLimit / maxPsi else 0
  min maxTheorTimeStep maxNumerTimeStep

/-! ## `Temperature::SetInitial`, NY0 boundary block

The NY0 block runs, for every `i` and every ghost index `j < 0`, an
innermost loop whose guard tests `k < Tx.sizeZ() + Tx.BcellsZ()` but whose
increment statement is `j++` (`Temperature.cpp`, the `//NY0` block).  The
state of one execution of that innermost loop is the pair `(j, k)`. -/

/-- Loop-variable state of the NY0 innermost loop. -/
structure BCLoopState where
  j : ℤ
  k : ℤ
deriving Repr, DecidableEq

/-- One execution of the NY0 innermost loop's increment statement: the
source increments `j`, not `k`. -/
def ny0InnerStep (s : BCLoopState) : BCLoopState := { s with j := s.j + 1 }

/-- The NY0 innermost loop's guard: `k < sizeZ + bcellsZ`. -/
def ny0InnerGuard (sizeZ bcellsZ : ℤ) (s : BCLoopState) : Prop :=
  s.k < sizeZ + bcellsZ

/-- `n` executions of the NY0 innermost loop's increment. -/
def ny0Iter : ℕ → BCLoopState → BCLoopState
  | 0, s => s
  | n + 1, s => ny0Iter n (ny0InnerStep s)

/-! ## `PhaseField::CalculateGrainsVolume` — registry lifecycle update -/

/-- Lifecycle stages of a phase-field region (grain). -/
inductive GrainStages where
  | Seed
  | Nucleus
  | Stable
deriving Repr, DecidableEq

/-- The registry fields of one grain that the volume-update pass reads
and writes.  `VolumeRat` is the source's volume-ratio member. -/
structure Grain where
  Exist : Bool
  Stage : GrainStages
  Volume : ℚ
  MAXVolume : ℚ
  RefVolume : ℚ
  VolumeRat : ℚ
deriving Repr, DecidableEq

/-- Per-grain body of the statistics update in
`PhaseField::CalculateGrainsVolume`: refresh `MAXVolume` and the volume
ratio, then clear vanished grains and promote growing ones. -/
def updateGrain (g : Grain) : Grain :=
  let mv := max g.Volume g.MAXVolume
  let g1 : Grain := { g with MAXVolume := mv, VolumeRat := mv / g.RefVolume }
  if g1.Exist = true ∧ g1.Volume ≤ 0 then
    { g1 with Exist := false, Stage := GrainStages.Stable,
              Volume := 0, MAXVolume := 0, VolumeRat := 1 }
  else if 0 < g1.Volume then
    let g2 : Grain := { g1 with Exist := true }
    let g3 : Grain :=
      if g2.Stage = GrainStages.Seed then { g2 with Stage := GrainStages.Nucleus } else g2
    if 1 < g3.VolumeRat then { g3 with Stage := GrainStages.Stable, VolumeRat := 1 } else g3
  else g1

/-! ## `PhaseField::Coarsen` / `PhaseField::Refine` — per-cell coupling

`Coarsen` clears a wide-interface coarse cell's node, adds the
`2^dimension` corresponding fine nodes into it, scales by
`1/2^dimension` and finalizes.  `Refine` writes into each fine child the
interpolated sample of the coarse storage at quarter offsets and
finalizes it; the sample is a convex combination of the surrounding
coarse nodes.  The interpolating `at` accessor is declared in a header
that is not in the source tree; it is modelled from the spec as a
weighted (convex) combination of the sampled coarse nodes. -/

/-- Per-cell body of `PhaseField::Coarsen`: accumulate the fine children
into a cleared node, scale by the averaging weight, finalize. -/
def coarsenNode (children : List NodePF) (norm : ℚ) : NodePF :=
  finalize (scaleNode (children.foldl nodePlus []) norm)

/-- Modelled from the spec: the interpolated sample
`Fields.at(i ± 0.25, ...)` used by `PhaseField::Refine`, a weighted
combination of the surrounding coarse nodes. -/
def interpNode (parts : List (ℚ × NodePF)) : NodePF :=
  parts.foldl (fun acc p => nodePlus acc (scaleNode p.2 p.1)) []

/-- Per-cell body of `PhaseField::Refine`: one fine child, the finalized
interpolated sample. -/
def refineChild (parts : List (ℚ × NodePF)) : NodePF :=
  finalize (interpNode parts)

/-! ## Arithmetical facts about the node container -/

theorem nodeSum_nil : nodeSum [] = 0 := rfl

theorem nodeSum_cons (e : Entry) (t : NodePF) :
    nodeSum (e :: t) = e.value + nodeSum t := by
  simp [nodeSum]

/-- `add_value` shifts the cell's total occupancy by exactly the added
amount, whether the index was present or not. -/
theorem nodeSum_add_value (n : NodePF) (idx : ℕ) (v : ℚ) :
    nodeSum (add_value n idx v) = nodeSum n + v := by
  induction n with
  | nil => simp [add_value, nodeSum]
  | cons e rest ih =>
      by_cases h : e.index = idx
      · simp only [add_value, if_pos h, nodeSum_cons]
        ring
      · simp only [add_value, if_neg h, nodeSum_cons, ih]
        ring

/-- Accumulating a node into another adds the totals. -/
theorem nodeSum_nodePlus (a b : NodePF) :
    nodeSum (nodePlus a b) = nodeSum a + nodeSum b := by
  induction b generalizing a with
  | nil => simp [nodePlus, nodeSum]
  | cons e rest ih =>
      show nodeSum (nodePlus (add_value a e.index e.value) rest) = _
      rw [ih, nodeSum_add_value, nodeSum_cons]
      ring

/-- Scaling a node scales its total. -/
theorem nodeSum_scaleNode (n : NodePF) (c : ℚ) :
    nodeSum (scaleNode n c) = c * nodeSum n := by
  induction n with
  | nil => simp [scaleNode, nodeSum]
  | cons e rest ih =>
      show nodeSum (⟨e.index, e.value * c⟩ :: scaleNode rest c) = _
      rw [nodeSum_cons, nodeSum_cons, ih]
      ring

/-- Finalize only prunes sub-epsilon entries, so it moves the cell's
total occupancy by at most `length * DBL_EPSILON`. -/
theorem abs_nodeSum_finalize_sub (n : NodePF) :
    |nodeSum (finalize n) - nodeSum n| ≤ n.length * DBL_EPSILON := by
  induction n with
  | nil => simp [finalize, nodeSum]
  | cons e rest ih =>
      have heps : (0 : ℚ) ≤ DBL_EPSILON := by norm_num [DBL_EPSILON]
      by_cases h : DBL_EPSILON ≤ |e.value|
      · have : finalize (e :: rest) = e :: finalize rest := by
          simp [finalize, h]
        rw [this, nodeSum_cons, nodeSum_cons]
        have : e.value + nodeSum (finalize rest) - (e.value + nodeSum rest)
            = nodeSum (finalize rest) - nodeSum rest := by ring
        rw [this]
        refine ih.trans ?_
        have : ((rest.length : ℚ)) * DBL_EPSILON ≤ (rest.length + 1) * DBL_EPSILON := by
          nlinarith
        simpa [List.length_cons, add_mul] using this
      · have hsmall : |e.value| < DBL_EPSILON := lt_of_not_le h
        have : finalize (e :: rest) = finalize rest := by
          simp [finalize, h]
        rw [this, nodeSum_cons]
        have hsplit : nodeSum (finalize rest) - (e.value + nodeSum rest)
            = (nodeSum (finalize rest) - nodeSum rest) + (-e.value) := by ring
        rw [hsplit]
        refine (abs_add _ _).trans ?_
        have h1 : |(-e.value)| ≤ DBL_EPSILON := by
          rw [abs_neg]; exact le_of_lt hsmall
        have := add_le_add ih h1
        refine this.trans ?_
        simp only [List.length_cons]
        push_cast
        nlinarith


/-- The merge applies every record antisymmetrically (adds `v` at one
end, `-v` at the other, or skips the record entirely), so the cell's
total occupancy is preserved exactly, for every store, time step and
damping factor. -/
theorem nodeSum_mergeNode (factor : ℕ → ℕ → ℚ) (dt : ℚ) :
    ∀ (s : Store) (fields : NodePF),
      nodeSum (mergeNode factor fields s dt) = nodeSum fields := by
  intro s
  induction s with
  | nil => intro fields; rfl
  | cons r t ih =>
      intro fields
      have hstep : mergeNode factor fields (r :: t) dt
          = mergeNode factor
              (if DBL_EPSILON ≤ |factor r.indexA r.indexB * (r.value1 + r.value2) * dt| then
                add_value (add_value fields r.indexA
                    (factor r.indexA r.indexB * (r.value1 + r.value2) * dt)) r.indexB
                  (-(factor r.indexA r.indexB * (r.value1 + r.value2) * dt))
              else fields) t dt := rfl
      rw [hstep]
      by_cases h : DBL_EPSILON ≤ |factor r.indexA r.indexB * (r.value1 + r.value2) * dt|
      · rw [if_pos h, ih, nodeSum_add_value, nodeSum_add_value]
        ring
      · rw [if_neg h, ih]



/-- Unfolding step of the limiting loop when the pass reports that
scaling was still needed. -/
theorem limitLoop_step_true (fields : NodePF) (dt : ℚ) (fuel : ℕ) (s s2 : Store)
    (h : limitIter fields dt s = (s2, true)) :
    limitLoop fields dt (fuel + 1) s
      = ((limitLoop fields dt fuel s2).1, (limitLoop fields dt fuel s2).2 + 1) := by
  simp [limitLoop, h]

/-- Unfolding of the limiting loop at exhausted fuel: the pass runs once
more and the loop stops regardless of the pass's flag. -/
theorem limitLoop_zero (fields : NodePF) (dt : ℚ) (s : Store) :
    limitLoop fields dt 0 s = ((limitIter fields dt s).1, 1) := rfl

/-- Constant damping factor 1: the merge's damping applies only when both
endpoints carry an active growth-constraint violation; this is the factor
function of a registry without violations. -/
def unitFactor : ℕ → ℕ → ℚ := fun _ _ => 1

/-- The clamp loop's pass count never exceeds its remaining fuel plus the
pass that is always executed. -/
theorem limitLoop_iters_le (fields : NodePF) (dt : ℚ) :
    ∀ (fuel : ℕ) (s : Store), (limitLoop fields dt fuel s).2 ≤ fuel + 1 := by
  intro fuel
  induction fuel with
  | zero => intro s; simp [limitLoop]
  | succ f ih =>
      intro s
      simp only [limitLoop]
      by_cases h : (limitIter fields dt s).2 = true
      · simp only [h, if_true]
        have := ih (limitIter fields dt s).1
        omega
      · simp [h]

/-- The `k` component of the NY0 loop state never changes, because the
loop's increment statement targets `j`. -/
theorem ny0Iter_k_const : ∀ (n : ℕ) (s : BCLoopState), (ny0Iter n s).k = s.k := by
  intro n
  induction n with
  | zero => intro s; rfl
  | succ m ih => intro s; exact ih (ny0InnerStep s)

/-- C9: the claim states that `Temperature::SetInitial` terminates and
that the NY0 boundary loop visits each ghost cell with `j < 0` finitely
often.  The source's NY0 innermost loop increments `j` instead of `k`
(`Temperature.cpp`, `//NY0` block), so whenever it is entered (here with
`sizeZ = 4`, `BcellsZ = 1`, start `k = -1`) its guard `k < sizeZ + bcellsZ`
holds after every number of iterations: the loop never exits. -/
theorem C9_ny0_loop_never_exits :
    ∀ n : ℕ, ny0InnerGuard 4 1 (ny0Iter n ⟨-1, -1⟩) := by
  intro n
  show (ny0Iter n ⟨-1, -1⟩).k < 4 + 1
  rw [ny0Iter_k_const]
  norm_num

/-- C10: whenever the recorded maximum phase-field increment is at most
`DBL_EPSILON`, `DrivingForce::MaxTimeStep` returns 0 rather than the
theoretical stability limit, because the numerical limit keeps its
default 0 and the function returns the minimum of the two limits. -/
theorem C10_zero_step_without_increment
    (TheorLimit RefMaxStep NumerLimit maxPsi : ℚ)
    (hpsi : maxPsi ≤ DBL_EPSILON) (hth : 0 ≤ TheorLimit * RefMaxStep) :
    MaxTimeStep TheorLimit RefMaxStep NumerLimit maxPsi = 0 := by
  simp only [MaxTimeStep]
  rw [if_neg (not_lt.mpr hpsi)]
  exact min_eq_right hth

/-- Witness for C10 at `TheorLimit = 1`, `RefMaxStep = 1`,
`NumerLimit = 1/1000`, `maxPsi = 0`. -/
theorem C10_zero_step_without_increment_witness :
    MaxTimeStep 1 1 (1 / 1000) 0 = 0 :=
  C10_zero_step_without_increment 1 1 (1 / 1000) 0
    (by norm_num [DBL_EPSILON]) (by norm_num)

/-- C8 counterexample: the claim says a grain is promoted to `Stable`
once its volume ratio reaches 1.  A grain whose volume ratio is exactly 1
(`Volume = MAXVolume = RefVolume = 1`, stage `Nucleus`) is not promoted:
the source requires the ratio to exceed 1 strictly. -/
theorem C8_counterexample :
    max (1 : ℚ) 1 / 1 = 1 ∧
    (updateGrain ⟨true, GrainStages.Nucleus, 1, 1, 1, 1⟩).Stage ≠ GrainStages.Stable := by
  constructor
  · norm_num
  · intro h
    have : (updateGrain ⟨true, GrainStages.Nucleus, 1, 1, 1, 1⟩).Stage
        = GrainStages.Nucleus := by
      norm_num [updateGrain]
    rw [this] at h
    exact GrainStages.noConfusion h

/-- C8 (amended): after the volume update, an existing grain with
non-positive volume has its existence flag cleared; a positive-volume
`Seed` grain whose refreshed volume ratio does not exceed 1 becomes a
`Nucleus`; and a positive-volume grain whose refreshed volume ratio
exceeds 1 strictly becomes `Stable` with the ratio reset to 1. -/
theorem C8_lifecycle_amended (g : Grain) :
    ((g.Exist = true ∧ g.Volume ≤ 0) → (updateGrain g).Exist = false) ∧
    ((0 < g.Volume ∧ g.Stage = GrainStages.Seed ∧
        max g.Volume g.MAXVolume / g.RefVolume ≤ 1) →
      (updateGrain g).Stage = GrainStages.Nucleus) ∧
    ((0 < g.Volume ∧ 1 < max g.Volume g.MAXVolume / g.RefVolume) →
      (updateGrain g).Stage = GrainStages.Stable ∧ (updateGrain g).VolumeRat = 1) := by
  refine ⟨?_, ?_, ?_⟩
  · rintro ⟨h1, h2⟩
    simp [updateGrain, h1, h2]
  · rintro ⟨h1, h2, h3⟩
    have hne : ¬(g.Exist = true ∧ g.Volume ≤ 0) := by
      rintro ⟨-, hv⟩; linarith
    simp [updateGrain, hne, h1, h2, not_lt.mpr h3]
  · rintro ⟨h1, h2⟩
    have hne : ¬(g.Exist = true ∧ g.Volume ≤ 0) := by
      rintro ⟨-, hv⟩; linarith
    by_cases hseed : g.Stage = GrainStages.Seed
    · simp [updateGrain, hne, h1, h2, hseed]
    · simp [updateGrain, hne, h1, h2, hseed]

/-- Witness for C8 (amended): a vanished grain is cleared, a grown seed
becomes a nucleus, an over-reference-volume grain becomes stable. -/
theorem C8_lifecycle_amended_witness :
    (updateGrain ⟨true, GrainStages.Nucleus, 0, 1, 1, 1⟩).Exist = false ∧
    (updateGrain ⟨false, GrainStages.Seed, 1/2, 1/2, 1, 0⟩).Stage = GrainStages.Nucleus ∧
    ((updateGrain ⟨true, GrainStages.Nucleus, 3, 3, 2, 0⟩).Stage = GrainStages.Stable ∧
      (updateGrain ⟨true, GrainStages.Nucleus, 3, 3, 2, 0⟩).VolumeRat = 1) :=
  ⟨(C8_lifecycle_amended ⟨true, GrainStages.Nucleus, 0, 1, 1, 1⟩).1 ⟨rfl, by norm_num⟩,
   (C8_lifecycle_amended ⟨false, GrainStages.Seed, 1/2, 1/2, 1, 0⟩).2.1
     ⟨by norm_num, rfl, by norm_num⟩,
   (C8_lifecycle_amended ⟨true, GrainStages.Nucleus, 3, 3, 2, 0⟩).2.2
     ⟨by norm_num, by norm_num⟩⟩

/-- C2: the merge preserves the cell's total occupancy exactly — every
record adds a value at one end of its pair and subtracts it at the other,
for every record, time step and damping factor — so a cell whose total
was 1 still totals 1 after the merge, and finalize moves the total by at
most one machine epsilon per entry. -/
theorem C2_merge_conserves_sum (factor : ℕ → ℕ → ℚ) (fields : NodePF)
    (s : Store) (dt : ℚ) (hone : nodeSum fields = 1) :
    nodeSum (mergeNode factor fields s dt) = nodeSum fields ∧
    |nodeSum (finalize (mergeNode factor fields s dt)) - 1| ≤
      (mergeNode factor fields s dt).length * DBL_EPSILON := by
  refine ⟨nodeSum_mergeNode factor dt s fields, ?_⟩
  have h := abs_nodeSum_finalize_sub (mergeNode factor fields s dt)
  rwa [nodeSum_mergeNode factor dt s fields, hone] at h

/-- Witness for C2 on a two-region cell with one pairwise record. -/
theorem C2_merge_conserves_sum_witness :
    nodeSum (mergeNode unitFactor [⟨1, 1/2⟩, ⟨2, 1/2⟩] [⟨1, 2, 1/4, 0⟩] 1)
      = nodeSum [⟨1, 1/2⟩, ⟨2, 1/2⟩] ∧
    |nodeSum (finalize (mergeNode unitFactor [⟨1, 1/2⟩, ⟨2, 1/2⟩] [⟨1, 2, 1/4, 0⟩] 1)) - 1| ≤
      (mergeNode unitFactor [⟨1, 1/2⟩, ⟨2, 1/2⟩] [⟨1, 2, 1/4, 0⟩] 1).length * DBL_EPSILON :=
  C2_merge_conserves_sum unitFactor [⟨1, 1/2⟩, ⟨2, 1/2⟩] [⟨1, 2, 1/4, 0⟩] 1 (by norm_num [nodeSum, Entry.value])

/-- C3: Scenario A — cell `{5: 0.6, 9: 0.4}`, one pair `(5,9)` whose two
contributions combine to rate 2, `dt = 1/2`: normalization scales the
record so the merged update lands region 5 exactly on 1 and region 9
exactly on 0. -/
theorem C3_scenario_A (v1 v2 : ℚ) (hcomb : v1 + v2 = 2) :
    get_value (mergeNode unitFactor [⟨5, 3/5⟩, ⟨9, 2/5⟩]
      (normalizeNode [⟨5, 3/5⟩, ⟨9, 2/5⟩] (1/2) [⟨5, 9, v1, v2⟩]).store (1/2)) 5 = 1 ∧
    get_value (mergeNode unitFactor [⟨5, 3/5⟩, ⟨9, 2/5⟩]
      (normalizeNode [⟨5, 3/5⟩, ⟨9, 2/5⟩] (1/2) [⟨5, 9, v1, v2⟩]).store (1/2)) 9 = 0 := by
  have h1 : ((v1 + v2) * (1/2) : ℚ) = 1 := by rw [hcomb]; norm_num
  have hstore : (normalizeNode [⟨5, 3/5⟩, ⟨9, 2/5⟩] (1/2) [⟨5, 9, v1, v2⟩]).store
      = [⟨5, 9, v1 * (2/5), v2 * (2/5)⟩] := by
    show fastPath [⟨5, 3/5⟩, ⟨9, 2/5⟩] (1/2) ⟨5, 9, v1, v2⟩ = _
    simp only [fastPath, get_value, scaleStore, List.map]
    norm_num [h1, DBL_EPSILON]
  rw [hstore]
  have h2 : (unitFactor 5 9 * (v1 * (2/5) + v2 * (2/5)) * (1/2) : ℚ) = 2/5 := by
    have h3 : (v1 * (2/5) + v2 * (2/5) : ℚ) = (v1 + v2) * (2/5) := by ring
    simp only [unitFactor, h3, hcomb]
    norm_num
  simp only [mergeNode, List.foldl, h2]
  rw [if_pos (show DBL_EPSILON ≤ |(2:ℚ)/5| by
    rw [abs_of_pos (by norm_num : (0:ℚ) < 2/5)]; norm_num [DBL_EPSILON])]
  constructor
  · simp only [add_value, get_value]
    norm_num
  · simp only [add_value, get_value]
    norm_num

/-- Witness for C3 with the combined rate split as `v1 = 2`, `v2 = 0`. -/
theorem C3_scenario_A_witness :
    get_value (mergeNode unitFactor [⟨5, 3/5⟩, ⟨9, 2/5⟩]
      (normalizeNode [⟨5, 3/5⟩, ⟨9, 2/5⟩] (1/2) [⟨5, 9, 2, 0⟩]).store (1/2)) 5 = 1 ∧
    get_value (mergeNode unitFactor [⟨5, 3/5⟩, ⟨9, 2/5⟩]
      (normalizeNode [⟨5, 3/5⟩, ⟨9, 2/5⟩] (1/2) [⟨5, 9, 2, 0⟩]).store (1/2)) 9 = 0 :=
  C3_scenario_A 2 0 (by norm_num)

set_option maxHeartbeats 1600000 in
/-- Per-pass evaluation of the limiting loop on the cap-hitting cell used
by the C4 and C5 counterexamples: scaling is still needed in every one of
the loop's 25 passes, so only the iteration cap stops it. -/
theorem capCellLoop_eval :
    limitLoop [(⟨1, (1 : ℚ)/4⟩ : Entry), ⟨2, (1 : ℚ)/8⟩, ⟨3, (3 : ℚ)/16⟩, ⟨4, (3 : ℚ)/8⟩, ⟨5, (1 : ℚ)/16⟩] 1 24
      [(⟨4, 5, ((5 : ℚ)/2), (0 : ℚ)⟩ : PairRec), (⟨1, 5, (-(11 : ℚ)/2), (0 : ℚ)⟩ : PairRec), (⟨1, 2, (15 : ℚ), (0 : ℚ)⟩ : PairRec), (⟨2, 5, ((1 : ℚ)/8), (0 : ℚ)⟩ : PairRec)]
    = ([(⟨4, 5, ((3919105 : ℚ)/8957952), (0 : ℚ)⟩ : PairRec), (⟨1, 5, (-(690509 : ℚ)/1492992), (0 : ℚ)⟩ : PairRec), (⟨1, 2, ((1903565 : ℚ)/8957952), (0 : ℚ)⟩ : PairRec), (⟨2, 5, ((783821 : ℚ)/8957952), (0 : ℚ)⟩ : PairRec)], 25) := by
  have h1 : limitIter [(⟨1, (1 : ℚ)/4⟩ : Entry), ⟨2, (1 : ℚ)/8⟩, ⟨3, (3 : ℚ)/16⟩, ⟨4, (3 : ℚ)/8⟩, ⟨5, (1 : ℚ)/16⟩] 1
      [(⟨4, 5, ((5 : ℚ)/2), (0 : ℚ)⟩ : PairRec), (⟨1, 5, (-(11 : ℚ)/2), (0 : ℚ)⟩ : PairRec), (⟨1, 2, (15 : ℚ), (0 : ℚ)⟩ : PairRec), (⟨2, 5, ((1 : ℚ)/8), (0 : ℚ)⟩ : PairRec)]
    = ([(⟨4, 5, ((5 : ℚ)/8), (0 : ℚ)⟩ : PairRec), (⟨1, 5, (-(57 : ℚ)/16), (0 : ℚ)⟩ : PairRec), (⟨1, 2, ((1 : ℚ)/4), (0 : ℚ)⟩ : PairRec), (⟨2, 5, ((1 : ℚ)/8), (0 : ℚ)⟩ : PairRec)], true) := by
    norm_num [limitIter, regionLimits, limitsEntry, posInc, negInc, applyLimits,
      getLimPos, getLimNeg, DBL_EPSILON]
  have h2 : limitIter [(⟨1, (1 : ℚ)/4⟩ : Entry), ⟨2, (1 : ℚ)/8⟩, ⟨3, (3 : ℚ)/16⟩, ⟨4, (3 : ℚ)/8⟩, ⟨5, (1 : ℚ)/16⟩] 1
      [(⟨4, 5, ((5 : ℚ)/8), (0 : ℚ)⟩ : PairRec), (⟨1, 5, (-(57 : ℚ)/16), (0 : ℚ)⟩ : PairRec), (⟨1, 2, ((1 : ℚ)/4), (0 : ℚ)⟩ : PairRec), (⟨2, 5, ((1 : ℚ)/8), (0 : ℚ)⟩ : PairRec)]
    = ([(⟨4, 5, ((5 : ℚ)/8), (0 : ℚ)⟩ : PairRec), (⟨1, 5, (-(1 : ℚ)/2), (0 : ℚ)⟩ : PairRec), (⟨1, 2, ((1 : ℚ)/4), (0 : ℚ)⟩ : PairRec), (⟨2, 5, ((1 : ℚ)/8), (0 : ℚ)⟩ : PairRec)], true) := by
    norm_num [limitIter, regionLimits, limitsEntry, posInc, negInc, applyLimits,
      getLimPos, getLimNeg, DBL_EPSILON]
  have h3 : limitIter [(⟨1, (1 : ℚ)/4⟩ : Entry), ⟨2, (1 : ℚ)/8⟩, ⟨3, (3 : ℚ)/16⟩, ⟨4, (3 : ℚ)/8⟩, ⟨5, (1 : ℚ)/16⟩] 1
      [(⟨4, 5, ((5 : ℚ)/8), (0 : ℚ)⟩ : PairRec), (⟨1, 5, (-(1 : ℚ)/2), (0 : ℚ)⟩ : PairRec), (⟨1, 2, ((1 : ℚ)/4), (0 : ℚ)⟩ : PairRec), (⟨2, 5, ((1 : ℚ)/8), (0 : ℚ)⟩ : PairRec)]
    = ([(⟨4, 5, ((15 : ℚ)/32), (0 : ℚ)⟩ : PairRec), (⟨1, 5, (-(1 : ℚ)/2), (0 : ℚ)⟩ : PairRec), (⟨1, 2, ((1 : ℚ)/4), (0 : ℚ)⟩ : PairRec), (⟨2, 5, ((3 : ℚ)/32), (0 : ℚ)⟩ : PairRec)], true) := by
    norm_num [limitIter, regionLimits, limitsEntry, posInc, negInc, applyLimits,
      getLimPos, getLimNeg, DBL_EPSILON]
  have h4 : limitIter [(⟨1, (1 : ℚ)/4⟩ : Entry), ⟨2, (1 : ℚ)/8⟩, ⟨3, (3 : ℚ)/16⟩, ⟨4, (3 : ℚ)/8⟩, ⟨5, (1 : ℚ)/16⟩] 1
      [(⟨4, 5, ((15 : ℚ)/32), (0 : ℚ)⟩ : PairRec), (⟨1, 5, (-(1 : ℚ)/2), (0 : ℚ)⟩ : PairRec), (⟨1, 2, ((1 : ℚ)/4), (0 : ℚ)⟩ : PairRec), (⟨2, 5, ((3 : ℚ)/32), (0 : ℚ)⟩ : PairRec)]
    = ([(⟨4, 5, ((15 : ℚ)/32), (0 : ℚ)⟩ : PairRec), (⟨1, 5, (-(1 : ℚ)/2), (0 : ℚ)⟩ : PairRec), (⟨1, 2, ((7 : ℚ)/32), (0 : ℚ)⟩ : PairRec), (⟨2, 5, ((3 : ℚ)/32), (0 : ℚ)⟩ : PairRec)], true) := by
    norm_num [limitIter, regionLimits, limitsEntry, posInc, negInc, applyLimits,
      getLimPos, getLimNeg, DBL_EPSILON]
  have h5 : limitIter [(⟨1, (1 : ℚ)/4⟩ : Entry), ⟨2, (1 : ℚ)/8⟩, ⟨3, (3 : ℚ)/16⟩, ⟨4, (3 : ℚ)/8⟩, ⟨5, (1 : ℚ)/16⟩] 1
      [(⟨4, 5, ((15 : ℚ)/32), (0 : ℚ)⟩ : PairRec), (⟨1, 5, (-(1 : ℚ)/2), (0 : ℚ)⟩ : PairRec), (⟨1, 2, ((7 : ℚ)/32), (0 : ℚ)⟩ : PairRec), (⟨2, 5, ((3 : ℚ)/32), (0 : ℚ)⟩ : PairRec)]
    = ([(⟨4, 5, ((15 : ℚ)/32), (0 : ℚ)⟩ : PairRec), (⟨1, 5, (-(15 : ℚ)/32), (0 : ℚ)⟩ : PairRec), (⟨1, 2, ((7 : ℚ)/32), (0 : ℚ)⟩ : PairRec), (⟨2, 5, ((3 : ℚ)/32), (0 : ℚ)⟩ : PairRec)], true) := by
    norm_num [limitIter, regionLimits, limitsEntry, posInc, negInc, applyLimits,
      getLimPos, getLimNeg, DBL_EPSILON]
  have h6 : limitIter [(⟨1, (1 : ℚ)/4⟩ : Entry), ⟨2, (1 : ℚ)/8⟩, ⟨3, (3 : ℚ)/16⟩, ⟨4, (3 : ℚ)/8⟩, ⟨5, (1 : ℚ)/16⟩] 1
      [(⟨4, 5, ((15 : ℚ)/32), (0 : ℚ)⟩ : PairRec), (⟨1, 5, (-(15 : ℚ)/32), (0 : ℚ)⟩ : PairRec), (⟨1, 2, ((7 : ℚ)/32), (0 : ℚ)⟩ : PairRec), (⟨2, 5, ((3 : ℚ)/32), (0 : ℚ)⟩ : PairRec)]
    = ([(⟨4, 5, ((85 : ℚ)/192), (0 : ℚ)⟩ : PairRec), (⟨1, 5, (-(15 : ℚ)/32), (0 : ℚ)⟩ : PairRec), (⟨1, 2, ((7 : ℚ)/32), (0 : ℚ)⟩ : PairRec), (⟨2, 5, ((17 : ℚ)/192), (0 : ℚ)⟩ : PairRec)], true) := by
    norm_num [limitIter, regionLimits, limitsEntry, posInc, negInc, applyLimits,
      getLimPos, getLimNeg, DBL_EPSILON]
  have h7 : limitIter [(⟨1, (1 : ℚ)/4⟩ : Entry), ⟨2, (1 : ℚ)/8⟩, ⟨3, (3 : ℚ)/16⟩, ⟨4, (3 : ℚ)/8⟩, ⟨5, (1 : ℚ)/16⟩] 1
      [(⟨4, 5, ((85 : ℚ)/192), (0 : ℚ)⟩ : PairRec), (⟨1, 5, (-(15 : ℚ)/32), (0 : ℚ)⟩ : PairRec), (⟨1, 2, ((7 : ℚ)/32), (0 : ℚ)⟩ : PairRec), (⟨2, 5, ((17 : ℚ)/192), (0 : ℚ)⟩ : PairRec)]
    = ([(⟨4, 5, ((85 : ℚ)/192), (0 : ℚ)⟩ : PairRec), (⟨1, 5, (-(15 : ℚ)/32), (0 : ℚ)⟩ : PairRec), (⟨1, 2, ((41 : ℚ)/192), (0 : ℚ)⟩ : PairRec), (⟨2, 5, ((17 : ℚ)/192), (0 : ℚ)⟩ : PairRec)], true) := by
    norm_num [limitIter, regionLimits, limitsEntry, posInc, negInc, applyLimits,
      getLimPos, getLimNeg, DBL_EPSILON]
  have h8 : limitIter [(⟨1, (1 : ℚ)/4⟩ : Entry), ⟨2, (1 : ℚ)/8⟩, ⟨3, (3 : ℚ)/16⟩, ⟨4, (3 : ℚ)/8⟩, ⟨5, (1 : ℚ)/16⟩] 1
      [(⟨4, 5, ((85 : ℚ)/192), (0 : ℚ)⟩ : PairRec), (⟨1, 5, (-(15 : ℚ)/32), (0 : ℚ)⟩ : PairRec), (⟨1, 2, ((41 : ℚ)/192), (0 : ℚ)⟩ : PairRec), (⟨2, 5, ((17 : ℚ)/192), (0 : ℚ)⟩ : PairRec)]
    = ([(⟨4, 5, ((85 : ℚ)/192), (0 : ℚ)⟩ : PairRec), (⟨1, 5, (-(89 : ℚ)/192), (0 : ℚ)⟩ : PairRec), (⟨1, 2, ((41 : ℚ)/192), (0 : ℚ)⟩ : PairRec), (⟨2, 5, ((17 : ℚ)/192), (0 : ℚ)⟩ : PairRec)], true) := by
    norm_num [limitIter, regionLimits, limitsEntry, posInc, negInc, applyLimits,
      getLimPos, getLimNeg, DBL_EPSILON]
  have h9 : limitIter [(⟨1, (1 : ℚ)/4⟩ : Entry), ⟨2, (1 : ℚ)/8⟩, ⟨3, (3 : ℚ)/16⟩, ⟨4, (3 : ℚ)/8⟩, ⟨5, (1 : ℚ)/16⟩] 1
      [(⟨4, 5, ((85 : ℚ)/192), (0 : ℚ)⟩ : PairRec), (⟨1, 5, (-(89 : ℚ)/192), (0 : ℚ)⟩ : PairRec), (⟨1, 2, ((41 : ℚ)/192), (0 : ℚ)⟩ : PairRec), (⟨2, 5, ((17 : ℚ)/192), (0 : ℚ)⟩ : PairRec)]
    = ([(⟨4, 5, ((505 : ℚ)/1152), (0 : ℚ)⟩ : PairRec), (⟨1, 5, (-(89 : ℚ)/192), (0 : ℚ)⟩ : PairRec), (⟨1, 2, ((41 : ℚ)/192), (0 : ℚ)⟩ : PairRec), (⟨2, 5, ((101 : ℚ)/1152), (0 : ℚ)⟩ : PairRec)], true) := by
    norm_num [limitIter, regionLimits, limitsEntry, posInc, negInc, applyLimits,
      getLimPos, getLimNeg, DBL_EPSILON]
  have h10 : limitIter [(⟨1, (1 : ℚ)/4⟩ : Entry), ⟨2, (1 : ℚ)/8⟩, ⟨3, (3 : ℚ)/16⟩, ⟨4, (3 : ℚ)/8⟩, ⟨5, (1 : ℚ)/16⟩] 1
      [(⟨4, 5, ((505 : ℚ)/1152), (0 : ℚ)⟩ : PairRec), (⟨1, 5, (-(89 : ℚ)/192), (0 : ℚ)⟩ : PairRec), (⟨1, 2, ((41 : ℚ)/192), (0 : ℚ)⟩ : PairRec), (⟨2, 5, ((101 : ℚ)/1152), (0 : ℚ)⟩ : PairRec)]
    = ([(⟨4, 5, ((505 : ℚ)/1152), (0 : ℚ)⟩ : PairRec), (⟨1, 5, (-(89 : ℚ)/192), (0 : ℚ)⟩ : PairRec), (⟨1, 2, ((245 : ℚ)/1152), (0 : ℚ)⟩ : PairRec), (⟨2, 5, ((101 : ℚ)/1152), (0 : ℚ)⟩ : PairRec)], true) := by
    norm_num [limitIter, regionLimits, limitsEntry, posInc, negInc, applyLimits,
      getLimPos, getLimNeg, DBL_EPSILON]
  have h11 : limitIter [(⟨1, (1 : ℚ)/4⟩ : Entry), ⟨2, (1 : ℚ)/8⟩, ⟨3, (3 : ℚ)/16⟩, ⟨4, (3 : ℚ)/8⟩, ⟨5, (1 : ℚ)/16⟩] 1
      [(⟨4, 5, ((505 : ℚ)/1152), (0 : ℚ)⟩ : PairRec), (⟨1, 5, (-(89 : ℚ)/192), (0 : ℚ)⟩ : PairRec), (⟨1, 2, ((245 : ℚ)/1152), (0 : ℚ)⟩ : PairRec), (⟨2, 5, ((101 : ℚ)/1152), (0 : ℚ)⟩ : PairRec)]
    = ([(⟨4, 5, ((505 : ℚ)/1152), (0 : ℚ)⟩ : PairRec), (⟨1, 5, (-(533 : ℚ)/1152), (0 : ℚ)⟩ : PairRec), (⟨1, 2, ((245 : ℚ)/1152), (0 : ℚ)⟩ : PairRec), (⟨2, 5, ((101 : ℚ)/1152), (0 : ℚ)⟩ : PairRec)], true) := by
    norm_num [limitIter, regionLimits, limitsEntry, posInc, negInc, applyLimits,
      getLimPos, getLimNeg, DBL_EPSILON]
  have h12 : limitIter [(⟨1, (1 : ℚ)/4⟩ : Entry), ⟨2, (1 : ℚ)/8⟩, ⟨3, (3 : ℚ)/16⟩, ⟨4, (3 : ℚ)/8⟩, ⟨5, (1 : ℚ)/16⟩] 1
      [(⟨4, 5, ((505 : ℚ)/1152), (0 : ℚ)⟩ : PairRec), (⟨1, 5, (-(533 : ℚ)/1152), (0 : ℚ)⟩ : PairRec), (⟨1, 2, ((245 : ℚ)/1152), (0 : ℚ)⟩ : PairRec), (⟨2, 5, ((101 : ℚ)/1152), (0 : ℚ)⟩ : PairRec)]
    = ([(⟨4, 5, ((3025 : ℚ)/6912), (0 : ℚ)⟩ : PairRec), (⟨1, 5, (-(533 : ℚ)/1152), (0 : ℚ)⟩ : PairRec), (⟨1, 2, ((245 : ℚ)/1152), (0 : ℚ)⟩ : PairRec), (⟨2, 5, ((605 : ℚ)/6912), (0 : ℚ)⟩ : PairRec)], true) := by
    norm_num [limitIter, regionLimits, limitsEntry, posInc, negInc, applyLimits,
      getLimPos, getLimNeg, DBL_EPSILON]
  have h13 : limitIter [(⟨1, (1 : ℚ)/4⟩ : Entry), ⟨2, (1 : ℚ)/8⟩, ⟨3, (3 : ℚ)/16⟩, ⟨4, (3 : ℚ)/8⟩, ⟨5, (1 : ℚ)/16⟩] 1
      [(⟨4, 5, ((3025 : ℚ)/6912), (0 : ℚ)⟩ : PairRec), (⟨1, 5, (-(533 : ℚ)/1152), (0 : ℚ)⟩ : PairRec), (⟨1, 2, ((245 : ℚ)/1152), (0 : ℚ)⟩ : PairRec), (⟨2, 5, ((605 : ℚ)/6912), (0 : ℚ)⟩ : PairRec)]
    = ([(⟨4, 5, ((3025 : ℚ)/6912), (0 : ℚ)⟩ : PairRec), (⟨1, 5, (-(533 : ℚ)/1152), (0 : ℚ)⟩ : PairRec), (⟨1, 2, ((1469 : ℚ)/6912), (0 : ℚ)⟩ : PairRec), (⟨2, 5, ((605 : ℚ)/6912), (0 : ℚ)⟩ : PairRec)], true) := by
    norm_num [limitIter, regionLimits, limitsEntry, posInc, negInc, applyLimits,
      getLimPos, getLimNeg, DBL_EPSILON]
  have h14 : limitIter [(⟨1, (1 : ℚ)/4⟩ : Entry), ⟨2, (1 : ℚ)/8⟩, ⟨3, (3 : ℚ)/16⟩, ⟨4, (3 : ℚ)/8⟩, ⟨5, (1 : ℚ)/16⟩] 1
      [(⟨4, 5, ((3025 : ℚ)/6912), (0 : ℚ)⟩ : PairRec), (⟨1, 5, (-(533 : ℚ)/1152), (0 : ℚ)⟩ : PairRec), (⟨1, 2, ((1469 : ℚ)/6912), (0 : ℚ)⟩ : PairRec), (⟨2, 5, ((605 : ℚ)/6912), (0 : ℚ)⟩ : PairRec)]
    = ([(⟨4, 5, ((3025 : ℚ)/6912), (0 : ℚ)⟩ : PairRec), (⟨1, 5, (-(3197 : ℚ)/6912), (0 : ℚ)⟩ : PairRec), (⟨1, 2, ((1469 : ℚ)/6912), (0 : ℚ)⟩ : PairRec), (⟨2, 5, ((605 : ℚ)/6912), (0 : ℚ)⟩ : PairRec)], true) := by
    norm_num [limitIter, regionLimits, limitsEntry, posInc, negInc, applyLimits,
      getLimPos, getLimNeg, DBL_EPSILON]
  have h15 : limitIter [(⟨1, (1 : ℚ)/4⟩ : Entry), ⟨2, (1 : ℚ)/8⟩, ⟨3, (3 : ℚ)/16⟩, ⟨4, (3 : ℚ)/8⟩, ⟨5, (1 : ℚ)/16⟩] 1
      [(⟨4, 5, ((3025 : ℚ)/6912), (0 : ℚ)⟩ : PairRec), (⟨1, 5, (-(3197 : ℚ)/6912), (0 : ℚ)⟩ : PairRec), (⟨1, 2, ((1469 : ℚ)/6912), (0 : ℚ)⟩ : PairRec), (⟨2, 5, ((605 : ℚ)/6912), (0 : ℚ)⟩ : PairRec)]
    = ([(⟨4, 5, ((18145 : ℚ)/41472), (0 : ℚ)⟩ : PairRec), (⟨1, 5, (-(3197 : ℚ)/6912), (0 : ℚ)⟩ : PairRec), (⟨1, 2, ((1469 : ℚ)/6912), (0 : ℚ)⟩ : PairRec), (⟨2, 5, ((3629 : ℚ)/41472), (0 : ℚ)⟩ : PairRec)], true) := by
    norm_num [limitIter, regionLimits, limitsEntry, posInc, negInc, applyLimits,
      getLimPos, getLimNeg, DBL_EPSILON]
  have h16 : limitIter [(⟨1, (1 : ℚ)/4⟩ : Entry), ⟨2, (1 : ℚ)/8⟩, ⟨3, (3 : ℚ)/16⟩, ⟨4, (3 : ℚ)/8⟩, ⟨5, (1 : ℚ)/16⟩] 1
      [(⟨4, 5, ((18145 : ℚ)/41472), (0 : ℚ)⟩ : PairRec), (⟨1, 5, (-(3197 : ℚ)/6912), (0 : ℚ)⟩ : PairRec), (⟨1, 2, ((1469 : ℚ)/6912), (0 : ℚ)⟩ : PairRec), (⟨2, 5, ((3629 : ℚ)/41472), (0 : ℚ)⟩ : PairRec)]
    = ([(⟨4, 5, ((18145 : ℚ)/41472), (0 : ℚ)⟩ : PairRec), (⟨1, 5, (-(3197 : ℚ)/6912), (0 : ℚ)⟩ : PairRec), (⟨1, 2, ((8813 : ℚ)/41472), (0 : ℚ)⟩ : PairRec), (⟨2, 5, ((3629 : ℚ)/41472), (0 : ℚ)⟩ : PairRec)], true) := by
    norm_num [limitIter, regionLimits, limitsEntry, posInc, negInc, applyLimits,
      getLimPos, getLimNeg, DBL_EPSILON]
  have h17 : limitIter [(⟨1, (1 : ℚ)/4⟩ : Entry), ⟨2, (1 : ℚ)/8⟩, ⟨3, (3 : ℚ)/16⟩, ⟨4, (3 : ℚ)/8⟩, ⟨5, (1 : ℚ)/16⟩] 1
      [(⟨4, 5, ((18145 : ℚ)/41472), (0 : ℚ)⟩ : PairRec), (⟨1, 5, (-(3197 : ℚ)/6912), (0 : ℚ)⟩ : PairRec), (⟨1, 2, ((8813 : ℚ)/41472), (0 : ℚ)⟩ : PairRec), (⟨2, 5, ((3629 : ℚ)/41472), (0 : ℚ)⟩ : PairRec)]
    = ([(⟨4, 5, ((18145 : ℚ)/41472), (0 : ℚ)⟩ : PairRec), (⟨1, 5, (-(19181 : ℚ)/41472), (0 : ℚ)⟩ : PairRec), (⟨1, 2, ((8813 : ℚ)/41472), (0 : ℚ)⟩ : PairRec), (⟨2, 5, ((3629 : ℚ)/41472), (0 : ℚ)⟩ : PairRec)], true) := by
    norm_num [limitIter, regionLimits, limitsEntry, posInc, negInc, applyLimits,
      getLimPos, getLimNeg, DBL_EPSILON]
  have h18 : limitIter [(⟨1, (1 : ℚ)/4⟩ : Entry), ⟨2, (1 : ℚ)/8⟩, ⟨3, (3 : ℚ)/16⟩, ⟨4, (3 : ℚ)/8⟩, ⟨5, (1 : ℚ)/16⟩] 1
      [(⟨4, 5, ((18145 : ℚ)/41472), (0 : ℚ)⟩ : PairRec), (⟨1, 5, (-(19181 : ℚ)/41472), (0 : ℚ)⟩ : PairRec), (⟨1, 2, ((8813 : ℚ)/41472), (0 : ℚ)⟩ : PairRec), (⟨2, 5, ((3629 : ℚ)/41472), (0 : ℚ)⟩ : PairRec)]
    = ([(⟨4, 5, ((108865 : ℚ)/248832), (0 : ℚ)⟩ : PairRec), (⟨1, 5, (-(19181 : ℚ)/41472), (0 : ℚ)⟩ : PairRec), (⟨1, 2, ((8813 : ℚ)/41472), (0 : ℚ)⟩ : PairRec), (⟨2, 5, ((21773 : ℚ)/248832), (0 : ℚ)⟩ : PairRec)], true) := by
    norm_num [limitIter, regionLimits, limitsEntry, posInc, negInc, applyLimits,
      getLimPos, getLimNeg, DBL_EPSILON]
  have h19 : limitIter [(⟨1, (1 : ℚ)/4⟩ : Entry), ⟨2, (1 : ℚ)/8⟩, ⟨3, (3 : ℚ)/16⟩, ⟨4, (3 : ℚ)/8⟩, ⟨5, (1 : ℚ)/16⟩] 1
      [(⟨4, 5, ((108865 : ℚ)/248832), (0 : ℚ)⟩ : PairRec), (⟨1, 5, (-(19181 : ℚ)/41472), (0 : ℚ)⟩ : PairRec), (⟨1, 2, ((8813 : ℚ)/41472), (0 : ℚ)⟩ : PairRec), (⟨2, 5, ((21773 : ℚ)/248832), (0 : ℚ)⟩ : PairRec)]
    = ([(⟨4, 5, ((108865 : ℚ)/248832), (0 : ℚ)⟩ : PairRec), (⟨1, 5, (-(19181 : ℚ)/41472), (0 : ℚ)⟩ : PairRec), (⟨1, 2, ((52877 : ℚ)/248832), (0 : ℚ)⟩ : PairRec), (⟨2, 5, ((21773 : ℚ)/248832), (0 : ℚ)⟩ : PairRec)], true) := by
    norm_num [limitIter, regionLimits, limitsEntry, posInc, negInc, applyLimits,
      getLimPos, getLimNeg, DBL_EPSILON]
  have h20 : limitIter [(⟨1, (1 : ℚ)/4⟩ : Entry), ⟨2, (1 : ℚ)/8⟩, ⟨3, (3 : ℚ)/16⟩, ⟨4, (3 : ℚ)/8⟩, ⟨5, (1 : ℚ)/16⟩] 1
      [(⟨4, 5, ((108865 : ℚ)/248832), (0 : ℚ)⟩ : PairRec), (⟨1, 5, (-(19181 : ℚ)/41472), (0 : ℚ)⟩ : PairRec), (⟨1, 2, ((52877 : ℚ)/248832), (0 : ℚ)⟩ : PairRec), (⟨2, 5, ((21773 : ℚ)/248832), (0 : ℚ)⟩ : PairRec)]
    = ([(⟨4, 5, ((108865 : ℚ)/248832), (0 : ℚ)⟩ : PairRec), (⟨1, 5, (-(115085 : ℚ)/248832), (0 : ℚ)⟩ : PairRec), (⟨1, 2, ((52877 : ℚ)/248832), (0 : ℚ)⟩ : PairRec), (⟨2, 5, ((21773 : ℚ)/248832), (0 : ℚ)⟩ : PairRec)], true) := by
    norm_num [limitIter, regionLimits, limitsEntry, posInc, negInc, applyLimits,
      getLimPos, getLimNeg, DBL_EPSILON]
  have h21 : limitIter [(⟨1, (1 : ℚ)/4⟩ : Entry), ⟨2, (1 : ℚ)/8⟩, ⟨3, (3 : ℚ)/16⟩, ⟨4, (3 : ℚ)/8⟩, ⟨5, (1 : ℚ)/16⟩] 1
      [(⟨4, 5, ((108865 : ℚ)/248832), (0 : ℚ)⟩ : PairRec), (⟨1, 5, (-(115085 : ℚ)/248832), (0 : ℚ)⟩ : PairRec), (⟨1, 2, ((52877 : ℚ)/248832), (0 : ℚ)⟩ : PairRec), (⟨2, 5, ((21773 : ℚ)/248832), (0 : ℚ)⟩ : PairRec)]
    = ([(⟨4, 5, ((653185 : ℚ)/1492992), (0 : ℚ)⟩ : PairRec), (⟨1, 5, (-(115085 : ℚ)/248832), (0 : ℚ)⟩ : PairRec), (⟨1, 2, ((52877 : ℚ)/248832), (0 : ℚ)⟩ : PairRec), (⟨2, 5, ((130637 : ℚ)/1492992), (0 : ℚ)⟩ : PairRec)], true) := by
    norm_num [limitIter, regionLimits, limitsEntry, posInc, negInc, applyLimits,
      getLimPos, getLimNeg, DBL_EPSILON]
  have h22 : limitIter [(⟨1, (1 : ℚ)/4⟩ : Entry), ⟨2, (1 : ℚ)/8⟩, ⟨3, (3 : ℚ)/16⟩, ⟨4, (3 : ℚ)/8⟩, ⟨5, (1 : ℚ)/16⟩] 1
      [(⟨4, 5, ((653185 : ℚ)/1492992), (0 : ℚ)⟩ : PairRec), (⟨1, 5, (-(115085 : ℚ)/248832), (0 : ℚ)⟩ : PairRec), (⟨1, 2, ((52877 : ℚ)/248832), (0 : ℚ)⟩ : PairRec), (⟨2, 5, ((130637 : ℚ)/1492992), (0 : ℚ)⟩ : PairRec)]
    = ([(⟨4, 5, ((653185 : ℚ)/1492992), (0 : ℚ)⟩ : PairRec), (⟨1, 5, (-(115085 : ℚ)/248832), (0 : ℚ)⟩ : PairRec), (⟨1, 2, ((317261 : ℚ)/1492992), (0 : ℚ)⟩ : PairRec), (⟨2, 5, ((130637 : ℚ)/1492992), (0 : ℚ)⟩ : PairRec)], true) := by
    norm_num [limitIter, regionLimits, limitsEntry, posInc, negInc, applyLimits,
      getLimPos, getLimNeg, DBL_EPSILON]
  have h23 : limitIter [(⟨1, (1 : ℚ)/4⟩ : Entry), ⟨2, (1 : ℚ)/8⟩, ⟨3, (3 : ℚ)/16⟩, ⟨4, (3 : ℚ)/8⟩, ⟨5, (1 : ℚ)/16⟩] 1
      [(⟨4, 5, ((653185 : ℚ)/1492992), (0 : ℚ)⟩ : PairRec), (⟨1, 5, (-(115085 : ℚ)/248832), (0 : ℚ)⟩ : PairRec), (⟨1, 2, ((317261 : ℚ)/1492992), (0 : ℚ)⟩ : PairRec), (⟨2, 5, ((130637 : ℚ)/1492992), (0 : ℚ)⟩ : PairRec)]
    = ([(⟨4, 5, ((653185 : ℚ)/1492992), (0 : ℚ)⟩ : PairRec), (⟨1, 5, (-(690509 : ℚ)/1492992), (0 : ℚ)⟩ : PairRec), (⟨1, 2, ((317261 : ℚ)/1492992), (0 : ℚ)⟩ : PairRec), (⟨2, 5, ((130637 : ℚ)/1492992), (0 : ℚ)⟩ : PairRec)], true) := by
    norm_num [limitIter, regionLimits, limitsEntry, posInc, negInc, applyLimits,
      getLimPos, getLimNeg, DBL_EPSILON]
  have h24 : limitIter [(⟨1, (1 : ℚ)/4⟩ : Entry), ⟨2, (1 : ℚ)/8⟩, ⟨3, (3 : ℚ)/16⟩, ⟨4, (3 : ℚ)/8⟩, ⟨5, (1 : ℚ)/16⟩] 1
      [(⟨4, 5, ((653185 : ℚ)/1492992), (0 : ℚ)⟩ : PairRec), (⟨1, 5, (-(690509 : ℚ)/1492992), (0 : ℚ)⟩ : PairRec), (⟨1, 2, ((317261 : ℚ)/1492992), (0 : ℚ)⟩ : PairRec), (⟨2, 5, ((130637 : ℚ)/1492992), (0 : ℚ)⟩ : PairRec)]
    = ([(⟨4, 5, ((3919105 : ℚ)/8957952), (0 : ℚ)⟩ : PairRec), (⟨1, 5, (-(690509 : ℚ)/1492992), (0 : ℚ)⟩ : PairRec), (⟨1, 2, ((317261 : ℚ)/1492992), (0 : ℚ)⟩ : PairRec), (⟨2, 5, ((783821 : ℚ)/8957952), (0 : ℚ)⟩ : PairRec)], true) := by
    norm_num [limitIter, regionLimits, limitsEntry, posInc, negInc, applyLimits,
      getLimPos, getLimNeg, DBL_EPSILON]
  have h25 : limitIter [(⟨1, (1 : ℚ)/4⟩ : Entry), ⟨2, (1 : ℚ)/8⟩, ⟨3, (3 : ℚ)/16⟩, ⟨4, (3 : ℚ)/8⟩, ⟨5, (1 : ℚ)/16⟩] 1
      [(⟨4, 5, ((3919105 : ℚ)/8957952), (0 : ℚ)⟩ : PairRec), (⟨1, 5, (-(690509 : ℚ)/1492992), (0 : ℚ)⟩ : PairRec), (⟨1, 2, ((317261 : ℚ)/1492992), (0 : ℚ)⟩ : PairRec), (⟨2, 5, ((783821 : ℚ)/8957952), (0 : ℚ)⟩ : PairRec)]
    = ([(⟨4, 5, ((3919105 : ℚ)/8957952), (0 : ℚ)⟩ : PairRec), (⟨1, 5, (-(690509 : ℚ)/1492992), (0 : ℚ)⟩ : PairRec), (⟨1, 2, ((1903565 : ℚ)/8957952), (0 : ℚ)⟩ : PairRec), (⟨2, 5, ((783821 : ℚ)/8957952), (0 : ℚ)⟩ : PairRec)], true) := by
    norm_num [limitIter, regionLimits, limitsEntry, posInc, negInc, applyLimits,
      getLimPos, getLimNeg, DBL_EPSILON]
  have g0 : limitLoop [(⟨1, (1 : ℚ)/4⟩ : Entry), ⟨2, (1 : ℚ)/8⟩, ⟨3, (3 : ℚ)/16⟩, ⟨4, (3 : ℚ)/8⟩, ⟨5, (1 : ℚ)/16⟩] 1 0
      [(⟨4, 5, ((3919105 : ℚ)/8957952), (0 : ℚ)⟩ : PairRec), (⟨1, 5, (-(690509 : ℚ)/1492992), (0 : ℚ)⟩ : PairRec), (⟨1, 2, ((317261 : ℚ)/1492992), (0 : ℚ)⟩ : PairRec), (⟨2, 5, ((783821 : ℚ)/8957952), (0 : ℚ)⟩ : PairRec)]
    = ([(⟨4, 5, ((3919105 : ℚ)/8957952), (0 : ℚ)⟩ : PairRec), (⟨1, 5, (-(690509 : ℚ)/1492992), (0 : ℚ)⟩ : PairRec), (⟨1, 2, ((1903565 : ℚ)/8957952), (0 : ℚ)⟩ : PairRec), (⟨2, 5, ((783821 : ℚ)/8957952), (0 : ℚ)⟩ : PairRec)], 1) := by
    rw [limitLoop_zero, h25]
  have g1 : limitLoop [(⟨1, (1 : ℚ)/4⟩ : Entry), ⟨2, (1 : ℚ)/8⟩, ⟨3, (3 : ℚ)/16⟩, ⟨4, (3 : ℚ)/8⟩, ⟨5, (1 : ℚ)/16⟩] 1 1
      [(⟨4, 5, ((653185 : ℚ)/1492992), (0 : ℚ)⟩ : PairRec), (⟨1, 5, (-(690509 : ℚ)/1492992), (0 : ℚ)⟩ : PairRec), (⟨1, 2, ((317261 : ℚ)/1492992), (0 : ℚ)⟩ : PairRec), (⟨2, 5, ((130637 : ℚ)/1492992), (0 : ℚ)⟩ : PairRec)]
    = ([(⟨4, 5, ((3919105 : ℚ)/8957952), (0 : ℚ)⟩ : PairRec), (⟨1, 5, (-(690509 : ℚ)/1492992), (0 : ℚ)⟩ : PairRec), (⟨1, 2, ((1903565 : ℚ)/8957952), (0 : ℚ)⟩ : PairRec), (⟨2, 5, ((783821 : ℚ)/8957952), (0 : ℚ)⟩ : PairRec)], 2) := by
    show limitLoop _ 1 (0 + 1) _ = _
    rw [limitLoop_step_true _ _ _ _ _ h24, g0]
  have g2 : limitLoop [(⟨1, (1 : ℚ)/4⟩ : Entry), ⟨2, (1 : ℚ)/8⟩, ⟨3, (3 : ℚ)/16⟩, ⟨4, (3 : ℚ)/8⟩, ⟨5, (1 : ℚ)/16⟩] 1 2
      [(⟨4, 5, ((653185 : ℚ)/1492992), (0 : ℚ)⟩ : PairRec), (⟨1, 5, (-(115085 : ℚ)/248832), (0 : ℚ)⟩ : PairRec), (⟨1, 2, ((317261 : ℚ)/1492992), (0 : ℚ)⟩ : PairRec), (⟨2, 5, ((130637 : ℚ)/1492992), (0 : ℚ)⟩ : PairRec)]
    = ([(⟨4, 5, ((3919105 : ℚ)/8957952), (0 : ℚ)⟩ : PairRec), (⟨1, 5, (-(690509 : ℚ)/1492992), (0 : ℚ)⟩ : PairRec), (⟨1, 2, ((1903565 : ℚ)/8957952), (0 : ℚ)⟩ : PairRec), (⟨2, 5, ((783821 : ℚ)/8957952), (0 : ℚ)⟩ : PairRec)], 3) := by
    show limitLoop _ 1 (1 + 1) _ = _
    rw [limitLoop_step_true _ _ _ _ _ h23, g1]
  have g3 : limitLoop [(⟨1, (1 : ℚ)/4⟩ : Entry), ⟨2, (1 : ℚ)/8⟩, ⟨3, (3 : ℚ)/16⟩, ⟨4, (3 : ℚ)/8⟩, ⟨5, (1 : ℚ)/16⟩] 1 3
      [(⟨4, 5, ((653185 : ℚ)/1492992), (0 : ℚ)⟩ : PairRec), (⟨1, 5, (-(115085 : ℚ)/248832), (0 : ℚ)⟩ : PairRec), (⟨1, 2, ((52877 : ℚ)/248832), (0 : ℚ)⟩ : PairRec), (⟨2, 5, ((130637 : ℚ)/1492992), (0 : ℚ)⟩ : PairRec)]
    = ([(⟨4, 5, ((3919105 : ℚ)/8957952), (0 : ℚ)⟩ : PairRec), (⟨1, 5, (-(690509 : ℚ)/1492992), (0 : ℚ)⟩ : PairRec), (⟨1, 2, ((1903565 : ℚ)/8957952), (0 : ℚ)⟩ : PairRec), (⟨2, 5, ((783821 : ℚ)/8957952), (0 : ℚ)⟩ : PairRec)], 4) := by
    show limitLoop _ 1 (2 + 1) _ = _
    rw [limitLoop_step_true _ _ _ _ _ h22, g2]
  have g4 : limitLoop [(⟨1, (1 : ℚ)/4⟩ : Entry), ⟨2, (1 : ℚ)/8⟩, ⟨3, (3 : ℚ)/16⟩, ⟨4, (3 : ℚ)/8⟩, ⟨5, (1 : ℚ)/16⟩] 1 4
      [(⟨4, 5, ((108865 : ℚ)/248832), (0 : ℚ)⟩ : PairRec), (⟨1, 5, (-(115085 : ℚ)/248832), (0 : ℚ)⟩ : PairRec), (⟨1, 2, ((52877 : ℚ)/248832), (0 : ℚ)⟩ : PairRec), (⟨2, 5, ((21773 : ℚ)/248832), (0 : ℚ)⟩ : PairRec)]
    = ([(⟨4, 5, ((3919105 : ℚ)/8957952), (0 : ℚ)⟩ : PairRec), (⟨1, 5, (-(690509 : ℚ)/1492992), (0 : ℚ)⟩ : PairRec), (⟨1, 2, ((1903565 : ℚ)/8957952), (0 : ℚ)⟩ : PairRec), (⟨2, 5, ((783821 : ℚ)/8957952), (0 : ℚ)⟩ : PairRec)], 5) := by
    show limitLoop _ 1 (3 + 1) _ = _
    rw [limitLoop_step_true _ _ _ _ _ h21, g3]
  have g5 : limitLoop [(⟨1, (1 : ℚ)/4⟩ : Entry), ⟨2, (1 : ℚ)/8⟩, ⟨3, (3 : ℚ)/16⟩, ⟨4, (3 : ℚ)/8⟩, ⟨5, (1 : ℚ)/16⟩] 1 5
      [(⟨4, 5, ((108865 : ℚ)/248832), (0 : ℚ)⟩ : PairRec), (⟨1, 5, (-(19181 : ℚ)/41472), (0 : ℚ)⟩ : PairRec), (⟨1, 2, ((52877 : ℚ)/248832), (0 : ℚ)⟩ : PairRec), (⟨2, 5, ((21773 : ℚ)/248832), (0 : ℚ)⟩ : PairRec)]
    = ([(⟨4, 5, ((3919105 : ℚ)/8957952), (0 : ℚ)⟩ : PairRec), (⟨1, 5, (-(690509 : ℚ)/1492992), (0 : ℚ)⟩ : PairRec), (⟨1, 2, ((1903565 : ℚ)/8957952), (0 : ℚ)⟩ : PairRec), (⟨2, 5, ((783821 : ℚ)/8957952), (0 : ℚ)⟩ : PairRec)], 6) := by
    show limitLoop _ 1 (4 + 1) _ = _
    rw [limitLoop_step_true _ _ _ _ _ h20, g4]
  have g6 : limitLoop [(⟨1, (1 : ℚ)/4⟩ : Entry), ⟨2, (1 : ℚ)/8⟩, ⟨3, (3 : ℚ)/16⟩, ⟨4, (3 : ℚ)/8⟩, ⟨5, (1 : ℚ)/16⟩] 1 6
      [(⟨4, 5, ((108865 : ℚ)/248832), (0 : ℚ)⟩ : PairRec), (⟨1, 5, (-(19181 : ℚ)/41472), (0 : ℚ)⟩ : PairRec), (⟨1, 2, ((8813 : ℚ)/41472), (0 : ℚ)⟩ : PairRec), (⟨2, 5, ((21773 : ℚ)/248832), (0 : ℚ)⟩ : PairRec)]
    = ([(⟨4, 5, ((3919105 : ℚ)/8957952), (0 : ℚ)⟩ : PairRec), (⟨1, 5, (-(690509 : ℚ)/1492992), (0 : ℚ)⟩ : PairRec), (⟨1, 2, ((1903565 : ℚ)/8957952), (0 : ℚ)⟩ : PairRec), (⟨2, 5, ((783821 : ℚ)/8957952), (0 : ℚ)⟩ : PairRec)], 7) := by
    show limitLoop _ 1 (5 + 1) _ = _
    rw [limitLoop_step_true _ _ _ _ _ h19, g5]
  have g7 : limitLoop [(⟨1, (1 : ℚ)/4⟩ : Entry), ⟨2, (1 : ℚ)/8⟩, ⟨3, (3 : ℚ)/16⟩, ⟨4, (3 : ℚ)/8⟩, ⟨5, (1 : ℚ)/16⟩] 1 7
      [(⟨4, 5, ((18145 : ℚ)/41472), (0 : ℚ)⟩ : PairRec), (⟨1, 5, (-(19181 : ℚ)/41472), (0 : ℚ)⟩ : PairRec), (⟨1, 2, ((8813 : ℚ)/41472), (0 : ℚ)⟩ : PairRec), (⟨2, 5, ((3629 : ℚ)/41472), (0 : ℚ)⟩ : PairRec)]
    = ([(⟨4, 5, ((3919105 : ℚ)/8957952), (0 : ℚ)⟩ : PairRec), (⟨1, 5, (-(690509 : ℚ)/1492992), (0 : ℚ)⟩ : PairRec), (⟨1, 2, ((1903565 : ℚ)/8957952), (0 : ℚ)⟩ : PairRec), (⟨2, 5, ((783821 : ℚ)/8957952), (0 : ℚ)⟩ : PairRec)], 8) := by
    show limitLoop _ 1 (6 + 1) _ = _
    rw [limitLoop_step_true _ _ _ _ _ h18, g6]
  have g8 : limitLoop [(⟨1, (1 : ℚ)/4⟩ : Entry), ⟨2, (1 : ℚ)/8⟩, ⟨3, (3 : ℚ)/16⟩, ⟨4, (3 : ℚ)/8⟩, ⟨5, (1 : ℚ)/16⟩] 1 8
      [(⟨4, 5, ((18145 : ℚ)/41472), (0 : ℚ)⟩ : PairRec), (⟨1, 5, (-(3197 : ℚ)/6912), (0 : ℚ)⟩ : PairRec), (⟨1, 2, ((8813 : ℚ)/41472), (0 : ℚ)⟩ : PairRec), (⟨2, 5, ((3629 : ℚ)/41472), (0 : ℚ)⟩ : PairRec)]
    = ([(⟨4, 5, ((3919105 : ℚ)/8957952), (0 : ℚ)⟩ : PairRec), (⟨1, 5, (-(690509 : ℚ)/1492992), (0 : ℚ)⟩ : PairRec), (⟨1, 2, ((1903565 : ℚ)/8957952), (0 : ℚ)⟩ : PairRec), (⟨2, 5, ((783821 : ℚ)/8957952), (0 : ℚ)⟩ : PairRec)], 9) := by
    show limitLoop _ 1 (7 + 1) _ = _
    rw [limitLoop_step_true _ _ _ _ _ h17, g7]
  have g9 : limitLoop [(⟨1, (1 : ℚ)/4⟩ : Entry), ⟨2, (1 : ℚ)/8⟩, ⟨3, (3 : ℚ)/16⟩, ⟨4, (3 : ℚ)/8⟩, ⟨5, (1 : ℚ)/16⟩] 1 9
      [(⟨4, 5, ((18145 : ℚ)/41472), (0 : ℚ)⟩ : PairRec), (⟨1, 5, (-(3197 : ℚ)/6912), (0 : ℚ)⟩ : PairRec), (⟨1, 2, ((1469 : ℚ)/6912), (0 : ℚ)⟩ : PairRec), (⟨2, 5, ((3629 : ℚ)/41472), (0 : ℚ)⟩ : PairRec)]
    = ([(⟨4, 5, ((3919105 : ℚ)/8957952), (0 : ℚ)⟩ : PairRec), (⟨1, 5, (-(690509 : ℚ)/1492992), (0 : ℚ)⟩ : PairRec), (⟨1, 2, ((1903565 : ℚ)/8957952), (0 : ℚ)⟩ : PairRec), (⟨2, 5, ((783821 : ℚ)/8957952), (0 : ℚ)⟩ : PairRec)], 10) := by
    show limitLoop _ 1 (8 + 1) _ = _
    rw [limitLoop_step_true _ _ _ _ _ h16, g8]
  have g10 : limitLoop [(⟨1, (1 : ℚ)/4⟩ : Entry), ⟨2, (1 : ℚ)/8⟩, ⟨3, (3 : ℚ)/16⟩, ⟨4, (3 : ℚ)/8⟩, ⟨5, (1 : ℚ)/16⟩] 1 10
      [(⟨4, 5, ((3025 : ℚ)/6912), (0 : ℚ)⟩ : PairRec), (⟨1, 5, (-(3197 : ℚ)/6912), (0 : ℚ)⟩ : PairRec), (⟨1, 2, ((1469 : ℚ)/6912), (0 : ℚ)⟩ : PairRec), (⟨2, 5, ((605 : ℚ)/6912), (0 : ℚ)⟩ : PairRec)]
    = ([(⟨4, 5, ((3919105 : ℚ)/8957952), (0 : ℚ)⟩ : PairRec), (⟨1, 5, (-(690509 : ℚ)/1492992), (0 : ℚ)⟩ : PairRec), (⟨1, 2, ((1903565 : ℚ)/8957952), (0 : ℚ)⟩ : PairRec), (⟨2, 5, ((783821 : ℚ)/8957952), (0 : ℚ)⟩ : PairRec)], 11) := by
    show limitLoop _ 1 (9 + 1) _ = _
    rw [limitLoop_step_true _ _ _ _ _ h15, g9]
  have g11 : limitLoop [(⟨1, (1 : ℚ)/4⟩ : Entry), ⟨2, (1 : ℚ)/8⟩, ⟨3, (3 : ℚ)/16⟩, ⟨4, (3 : ℚ)/8⟩, ⟨5, (1 : ℚ)/16⟩] 1 11
      [(⟨4, 5, ((3025 : ℚ)/6912), (0 : ℚ)⟩ : PairRec), (⟨1, 5, (-(533 : ℚ)/1152), (0 : ℚ)⟩ : PairRec), (⟨1, 2, ((1469 : ℚ)/6912), (0 : ℚ)⟩ : PairRec), (⟨2, 5, ((605 : ℚ)/6912), (0 : ℚ)⟩ : PairRec)]
    = ([(⟨4, 5, ((3919105 : ℚ)/8957952), (0 : ℚ)⟩ : PairRec), (⟨1, 5, (-(690509 : ℚ)/1492992), (0 : ℚ)⟩ : PairRec), (⟨1, 2, ((1903565 : ℚ)/8957952), (0 : ℚ)⟩ : PairRec), (⟨2, 5, ((783821 : ℚ)/8957952), (0 : ℚ)⟩ : PairRec)], 12) := by
    show limitLoop _ 1 (10 + 1) _ = _
    rw [limitLoop_step_true _ _ _ _ _ h14, g10]
  have g12 : limitLoop [(⟨1, (1 : ℚ)/4⟩ : Entry), ⟨2, (1 : ℚ)/8⟩, ⟨3, (3 : ℚ)/16⟩, ⟨4, (3 : ℚ)/8⟩, ⟨5, (1 : ℚ)/16⟩] 1 12
      [(⟨4, 5, ((3025 : ℚ)/6912), (0 : ℚ)⟩ : PairRec), (⟨1, 5, (-(533 : ℚ)/1152), (0 : ℚ)⟩ : PairRec), (⟨1, 2, ((245 : ℚ)/1152), (0 : ℚ)⟩ : PairRec), (⟨2, 5, ((605 : ℚ)/6912), (0 : ℚ)⟩ : PairRec)]
    = ([(⟨4, 5, ((3919105 : ℚ)/8957952), (0 : ℚ)⟩ : PairRec), (⟨1, 5, (-(690509 : ℚ)/1492992), (0 : ℚ)⟩ : PairRec), (⟨1, 2, ((1903565 : ℚ)/8957952), (0 : ℚ)⟩ : PairRec), (⟨2, 5, ((783821 : ℚ)/8957952), (0 : ℚ)⟩ : PairRec)], 13) := by
    show limitLoop _ 1 (11 + 1) _ = _
    rw [limitLoop_step_true _ _ _ _ _ h13, g11]
  have g13 : limitLoop [(⟨1, (1 : ℚ)/4⟩ : Entry), ⟨2, (1 : ℚ)/8⟩, ⟨3, (3 : ℚ)/16⟩, ⟨4, (3 : ℚ)/8⟩, ⟨5, (1 : ℚ)/16⟩] 1 13
      [(⟨4, 5, ((505 : ℚ)/1152), (0 : ℚ)⟩ : PairRec), (⟨1, 5, (-(533 : ℚ)/1152), (0 : ℚ)⟩ : PairRec), (⟨1, 2, ((245 : ℚ)/1152), (0 : ℚ)⟩ : PairRec), (⟨2, 5, ((101 : ℚ)/1152), (0 : ℚ)⟩ : PairRec)]
    = ([(⟨4, 5, ((3919105 : ℚ)/8957952), (0 : ℚ)⟩ : PairRec), (⟨1, 5, (-(690509 : ℚ)/1492992), (0 : ℚ)⟩ : PairRec), (⟨1, 2, ((1903565 : ℚ)/8957952), (0 : ℚ)⟩ : PairRec), (⟨2, 5, ((783821 : ℚ)/8957952), (0 : ℚ)⟩ : PairRec)], 14) := by
    show limitLoop _ 1 (12 + 1) _ = _
    rw [limitLoop_step_true _ _ _ _ _ h12, g12]
  have g14 : limitLoop [(⟨1, (1 : ℚ)/4⟩ : Entry), ⟨2, (1 : ℚ)/8⟩, ⟨3, (3 : ℚ)/16⟩, ⟨4, (3 : ℚ)/8⟩, ⟨5, (1 : ℚ)/16⟩] 1 14
      [(⟨4, 5, ((505 : ℚ)/1152), (0 : ℚ)⟩ : PairRec), (⟨1, 5, (-(89 : ℚ)/192), (0 : ℚ)⟩ : PairRec), (⟨1, 2, ((245 : ℚ)/1152), (0 : ℚ)⟩ : PairRec), (⟨2, 5, ((101 : ℚ)/1152), (0 : ℚ)⟩ : PairRec)]
    = ([(⟨4, 5, ((3919105 : ℚ)/8957952), (0 : ℚ)⟩ : PairRec), (⟨1, 5, (-(690509 : ℚ)/1492992), (0 : ℚ)⟩ : PairRec), (⟨1, 2, ((1903565 : ℚ)/8957952), (0 : ℚ)⟩ : PairRec), (⟨2, 5, ((783821 : ℚ)/8957952), (0 : ℚ)⟩ : PairRec)], 15) := by
    show limitLoop _ 1 (13 + 1) _ = _
    rw [limitLoop_step_true _ _ _ _ _ h11, g13]
  have g15 : limitLoop [(⟨1, (1 : ℚ)/4⟩ : Entry), ⟨2, (1 : ℚ)/8⟩, ⟨3, (3 : ℚ)/16⟩, ⟨4, (3 : ℚ)/8⟩, ⟨5, (1 : ℚ)/16⟩] 1 15
      [(⟨4, 5, ((505 : ℚ)/1152), (0 : ℚ)⟩ : PairRec), (⟨1, 5, (-(89 : ℚ)/192), (0 : ℚ)⟩ : PairRec), (⟨1, 2, ((41 : ℚ)/192), (0 : ℚ)⟩ : PairRec), (⟨2, 5, ((101 : ℚ)/1152), (0 : ℚ)⟩ : PairRec)]
    = ([(⟨4, 5, ((3919105 : ℚ)/8957952), (0 : ℚ)⟩ : PairRec), (⟨1, 5, (-(690509 : ℚ)/1492992), (0 : ℚ)⟩ : PairRec), (⟨1, 2, ((1903565 : ℚ)/8957952), (0 : ℚ)⟩ : PairRec), (⟨2, 5, ((783821 : ℚ)/8957952), (0 : ℚ)⟩ : PairRec)], 16) := by
    show limitLoop _ 1 (14 + 1) _ = _
    rw [limitLoop_step_true _ _ _ _ _ h10, g14]
  have g16 : limitLoop [(⟨1, (1 : ℚ)/4⟩ : Entry), ⟨2, (1 : ℚ)/8⟩, ⟨3, (3 : ℚ)/16⟩, ⟨4, (3 : ℚ)/8⟩, ⟨5, (1 : ℚ)/16⟩] 1 16
      [(⟨4, 5, ((85 : ℚ)/192), (0 : ℚ)⟩ : PairRec), (⟨1, 5, (-(89 : ℚ)/192), (0 : ℚ)⟩ : PairRec), (⟨1, 2, ((41 : ℚ)/192), (0 : ℚ)⟩ : PairRec), (⟨2, 5, ((17 : ℚ)/192), (0 : ℚ)⟩ : PairRec)]
    = ([(⟨4, 5, ((3919105 : ℚ)/8957952), (0 : ℚ)⟩ : PairRec), (⟨1, 5, (-(690509 : ℚ)/1492992), (0 : ℚ)⟩ : PairRec), (⟨1, 2, ((1903565 : ℚ)/8957952), (0 : ℚ)⟩ : PairRec), (⟨2, 5, ((783821 : ℚ)/8957952), (0 : ℚ)⟩ : PairRec)], 17) := by
    show limitLoop _ 1 (15 + 1) _ = _
    rw [limitLoop_step_true _ _ _ _ _ h9, g15]
  have g17 : limitLoop [(⟨1, (1 : ℚ)/4⟩ : Entry), ⟨2, (1 : ℚ)/8⟩, ⟨3, (3 : ℚ)/16⟩, ⟨4, (3 : ℚ)/8⟩, ⟨5, (1 : ℚ)/16⟩] 1 17
      [(⟨4, 5, ((85 : ℚ)/192), (0 : ℚ)⟩ : PairRec), (⟨1, 5, (-(15 : ℚ)/32), (0 : ℚ)⟩ : PairRec), (⟨1, 2, ((41 : ℚ)/192), (0 : ℚ)⟩ : PairRec), (⟨2, 5, ((17 : ℚ)/192), (0 : ℚ)⟩ : PairRec)]
    = ([(⟨4, 5, ((3919105 : ℚ)/8957952), (0 : ℚ)⟩ : PairRec), (⟨1, 5, (-(690509 : ℚ)/1492992), (0 : ℚ)⟩ : PairRec), (⟨1, 2, ((1903565 : ℚ)/8957952), (0 : ℚ)⟩ : PairRec), (⟨2, 5, ((783821 : ℚ)/8957952), (0 : ℚ)⟩ : PairRec)], 18) := by
    show limitLoop _ 1 (16 + 1) _ = _
    rw [limitLoop_step_true _ _ _ _ _ h8, g16]
  have g18 : limitLoop [(⟨1, (1 : ℚ)/4⟩ : Entry), ⟨2, (1 : ℚ)/8⟩, ⟨3, (3 : ℚ)/16⟩, ⟨4, (3 : ℚ)/8⟩, ⟨5, (1 : ℚ)/16⟩] 1 18
      [(⟨4, 5, ((85 : ℚ)/192), (0 : ℚ)⟩ : PairRec), (⟨1, 5, (-(15 : ℚ)/32), (0 : ℚ)⟩ : PairRec), (⟨1, 2, ((7 : ℚ)/32), (0 : ℚ)⟩ : PairRec), (⟨2, 5, ((17 : ℚ)/192), (0 : ℚ)⟩ : PairRec)]
    = ([(⟨4, 5, ((3919105 : ℚ)/8957952), (0 : ℚ)⟩ : PairRec), (⟨1, 5, (-(690509 : ℚ)/1492992), (0 : ℚ)⟩ : PairRec), (⟨1, 2, ((1903565 : ℚ)/8957952), (0 : ℚ)⟩ : PairRec), (⟨2, 5, ((783821 : ℚ)/8957952), (0 : ℚ)⟩ : PairRec)], 19) := by
    show limitLoop _ 1 (17 + 1) _ = _
    rw [limitLoop_step_true _ _ _ _ _ h7, g17]
  have g19 : limitLoop [(⟨1, (1 : ℚ)/4⟩ : Entry), ⟨2, (1 : ℚ)/8⟩, ⟨3, (3 : ℚ)/16⟩, ⟨4, (3 : ℚ)/8⟩, ⟨5, (1 : ℚ)/16⟩] 1 19
      [(⟨4, 5, ((15 : ℚ)/32), (0 : ℚ)⟩ : PairRec), (⟨1, 5, (-(15 : ℚ)/32), (0 : ℚ)⟩ : PairRec), (⟨1, 2, ((7 : ℚ)/32), (0 : ℚ)⟩ : PairRec), (⟨2, 5, ((3 : ℚ)/32), (0 : ℚ)⟩ : PairRec)]
    = ([(⟨4, 5, ((3919105 : ℚ)/8957952), (0 : ℚ)⟩ : PairRec), (⟨1, 5, (-(690509 : ℚ)/1492992), (0 : ℚ)⟩ : PairRec), (⟨1, 2, ((1903565 : ℚ)/8957952), (0 : ℚ)⟩ : PairRec), (⟨2, 5, ((783821 : ℚ)/8957952), (0 : ℚ)⟩ : PairRec)], 20) := by
    show limitLoop _ 1 (18 + 1) _ = _
    rw [limitLoop_step_true _ _ _ _ _ h6, g18]
  have g20 : limitLoop [(⟨1, (1 : ℚ)/4⟩ : Entry), ⟨2, (1 : ℚ)/8⟩, ⟨3, (3 : ℚ)/16⟩, ⟨4, (3 : ℚ)/8⟩, ⟨5, (1 : ℚ)/16⟩] 1 20
      [(⟨4, 5, ((15 : ℚ)/32), (0 : ℚ)⟩ : PairRec), (⟨1, 5, (-(1 : ℚ)/2), (0 : ℚ)⟩ : PairRec), (⟨1, 2, ((7 : ℚ)/32), (0 : ℚ)⟩ : PairRec), (⟨2, 5, ((3 : ℚ)/32), (0 : ℚ)⟩ : PairRec)]
    = ([(⟨4, 5, ((3919105 : ℚ)/8957952), (0 : ℚ)⟩ : PairRec), (⟨1, 5, (-(690509 : ℚ)/1492992), (0 : ℚ)⟩ : PairRec), (⟨1, 2, ((1903565 : ℚ)/8957952), (0 : ℚ)⟩ : PairRec), (⟨2, 5, ((783821 : ℚ)/8957952), (0 : ℚ)⟩ : PairRec)], 21) := by
    show limitLoop _ 1 (19 + 1) _ = _
    rw [limitLoop_step_true _ _ _ _ _ h5, g19]
  have g21 : limitLoop [(⟨1, (1 : ℚ)/4⟩ : Entry), ⟨2, (1 : ℚ)/8⟩, ⟨3, (3 : ℚ)/16⟩, ⟨4, (3 : ℚ)/8⟩, ⟨5, (1 : ℚ)/16⟩] 1 21
      [(⟨4, 5, ((15 : ℚ)/32), (0 : ℚ)⟩ : PairRec), (⟨1, 5, (-(1 : ℚ)/2), (0 : ℚ)⟩ : PairRec), (⟨1, 2, ((1 : ℚ)/4), (0 : ℚ)⟩ : PairRec), (⟨2, 5, ((3 : ℚ)/32), (0 : ℚ)⟩ : PairRec)]
    = ([(⟨4, 5, ((3919105 : ℚ)/8957952), (0 : ℚ)⟩ : PairRec), (⟨1, 5, (-(690509 : ℚ)/1492992), (0 : ℚ)⟩ : PairRec), (⟨1, 2, ((1903565 : ℚ)/8957952), (0 : ℚ)⟩ : PairRec), (⟨2, 5, ((783821 : ℚ)/8957952), (0 : ℚ)⟩ : PairRec)], 22) := by
    show limitLoop _ 1 (20 + 1) _ = _
    rw [limitLoop_step_true _ _ _ _ _ h4, g20]
  have g22 : limitLoop [(⟨1, (1 : ℚ)/4⟩ : Entry), ⟨2, (1 : ℚ)/8⟩, ⟨3, (3 : ℚ)/16⟩, ⟨4, (3 : ℚ)/8⟩, ⟨5, (1 : ℚ)/16⟩] 1 22
      [(⟨4, 5, ((5 : ℚ)/8), (0 : ℚ)⟩ : PairRec), (⟨1, 5, (-(1 : ℚ)/2), (0 : ℚ)⟩ : PairRec), (⟨1, 2, ((1 : ℚ)/4), (0 : ℚ)⟩ : PairRec), (⟨2, 5, ((1 : ℚ)/8), (0 : ℚ)⟩ : PairRec)]
    = ([(⟨4, 5, ((3919105 : ℚ)/8957952), (0 : ℚ)⟩ : PairRec), (⟨1, 5, (-(690509 : ℚ)/1492992), (0 : ℚ)⟩ : PairRec), (⟨1, 2, ((1903565 : ℚ)/8957952), (0 : ℚ)⟩ : PairRec), (⟨2, 5, ((783821 : ℚ)/8957952), (0 : ℚ)⟩ : PairRec)], 23) := by
    show limitLoop _ 1 (21 + 1) _ = _
    rw [limitLoop_step_true _ _ _ _ _ h3, g21]
  have g23 : limitLoop [(⟨1, (1 : ℚ)/4⟩ : Entry), ⟨2, (1 : ℚ)/8⟩, ⟨3, (3 : ℚ)/16⟩, ⟨4, (3 : ℚ)/8⟩, ⟨5, (1 : ℚ)/16⟩] 1 23
      [(⟨4, 5, ((5 : ℚ)/8), (0 : ℚ)⟩ : PairRec), (⟨1, 5, (-(57 : ℚ)/16), (0 : ℚ)⟩ : PairRec), (⟨1, 2, ((1 : ℚ)/4), (0 : ℚ)⟩ : PairRec), (⟨2, 5, ((1 : ℚ)/8), (0 : ℚ)⟩ : PairRec)]
    = ([(⟨4, 5, ((3919105 : ℚ)/8957952), (0 : ℚ)⟩ : PairRec), (⟨1, 5, (-(690509 : ℚ)/1492992), (0 : ℚ)⟩ : PairRec), (⟨1, 2, ((1903565 : ℚ)/8957952), (0 : ℚ)⟩ : PairRec), (⟨2, 5, ((783821 : ℚ)/8957952), (0 : ℚ)⟩ : PairRec)], 24) := by
    show limitLoop _ 1 (22 + 1) _ = _
    rw [limitLoop_step_true _ _ _ _ _ h2, g22]
  have g24 : limitLoop [(⟨1, (1 : ℚ)/4⟩ : Entry), ⟨2, (1 : ℚ)/8⟩, ⟨3, (3 : ℚ)/16⟩, ⟨4, (3 : ℚ)/8⟩, ⟨5, (1 : ℚ)/16⟩] 1 24
      [(⟨4, 5, ((5 : ℚ)/2), (0 : ℚ)⟩ : PairRec), (⟨1, 5, (-(11 : ℚ)/2), (0 : ℚ)⟩ : PairRec), (⟨1, 2, (15 : ℚ), (0 : ℚ)⟩ : PairRec), (⟨2, 5, ((1 : ℚ)/8), (0 : ℚ)⟩ : PairRec)]
    = ([(⟨4, 5, ((3919105 : ℚ)/8957952), (0 : ℚ)⟩ : PairRec), (⟨1, 5, (-(690509 : ℚ)/1492992), (0 : ℚ)⟩ : PairRec), (⟨1, 2, ((1903565 : ℚ)/8957952), (0 : ℚ)⟩ : PairRec), (⟨2, 5, ((783821 : ℚ)/8957952), (0 : ℚ)⟩ : PairRec)], 25) := by
    show limitLoop _ 1 (23 + 1) _ = _
    rw [limitLoop_step_true _ _ _ _ _ h1, g23]
  exact g24


set_option maxHeartbeats 800000 in
/-- Full evaluation of `PhaseField::NormalizeIncrementsSR` on the
cap-hitting cell: the clamp loop runs 25 passes (only the iteration cap
stops it) and the plausibility check finds no out-of-tolerance region, so
no warning at all is emitted for this cell. -/
theorem capCellNorm_eval :
    normalizeNode [(⟨1, (1 : ℚ)/4⟩ : Entry), ⟨2, (1 : ℚ)/8⟩, ⟨3, (3 : ℚ)/16⟩, ⟨4, (3 : ℚ)/8⟩, ⟨5, (1 : ℚ)/16⟩] 1
      [(⟨4, 5, ((5 : ℚ)/2), (0 : ℚ)⟩ : PairRec), (⟨1, 5, (-(11 : ℚ)/2), (0 : ℚ)⟩ : PairRec), (⟨1, 2, (15 : ℚ), (0 : ℚ)⟩ : PairRec), (⟨2, 5, ((1 : ℚ)/8), (0 : ℚ)⟩ : PairRec)]
    = ⟨[(⟨4, 5, ((3919105 : ℚ)/8957952), (0 : ℚ)⟩ : PairRec), (⟨1, 5, (-(690509 : ℚ)/1492992), (0 : ℚ)⟩ : PairRec), (⟨1, 2, ((1903565 : ℚ)/8957952), (0 : ℚ)⟩ : PairRec), (⟨2, 5, ((783821 : ℚ)/8957952), (0 : ℚ)⟩ : PairRec)], 25, 0⟩ := by
  have hpin : eraseZeroRecords (pinOutOfBounds [(⟨1, (1 : ℚ)/4⟩ : Entry), ⟨2, (1 : ℚ)/8⟩, ⟨3, (3 : ℚ)/16⟩, ⟨4, (3 : ℚ)/8⟩, ⟨5, (1 : ℚ)/16⟩]
      [(⟨4, 5, ((5 : ℚ)/2), (0 : ℚ)⟩ : PairRec), (⟨1, 5, (-(11 : ℚ)/2), (0 : ℚ)⟩ : PairRec), (⟨1, 2, (15 : ℚ), (0 : ℚ)⟩ : PairRec), (⟨2, 5, ((1 : ℚ)/8), (0 : ℚ)⟩ : PairRec)])
    = [(⟨4, 5, ((5 : ℚ)/2), (0 : ℚ)⟩ : PairRec), (⟨1, 5, (-(11 : ℚ)/2), (0 : ℚ)⟩ : PairRec), (⟨1, 2, (15 : ℚ), (0 : ℚ)⟩ : PairRec), (⟨2, 5, ((1 : ℚ)/8), (0 : ℚ)⟩ : PairRec)] := by
    norm_num [pinOutOfBounds, dPsiAlpha, get_asym1, get_asym2, set_sym_pair,
      eraseZeroRecords]
  have hclean : cleanupSmall 1
      [(⟨4, 5, ((3919105 : ℚ)/8957952), (0 : ℚ)⟩ : PairRec), (⟨1, 5, (-(690509 : ℚ)/1492992), (0 : ℚ)⟩ : PairRec), (⟨1, 2, ((1903565 : ℚ)/8957952), (0 : ℚ)⟩ : PairRec), (⟨2, 5, ((783821 : ℚ)/8957952), (0 : ℚ)⟩ : PairRec)]
    = [(⟨4, 5, ((3919105 : ℚ)/8957952), (0 : ℚ)⟩ : PairRec), (⟨1, 5, (-(690509 : ℚ)/1492992), (0 : ℚ)⟩ : PairRec), (⟨1, 2, ((1903565 : ℚ)/8957952), (0 : ℚ)⟩ : PairRec), (⟨2, 5, ((783821 : ℚ)/8957952), (0 : ℚ)⟩ : PairRec)] := by
    norm_num [cleanupSmall, DBL_EPSILON, abs_of_pos, abs_of_neg, abs_of_nonneg]
  have hwarn : warnCount [(⟨1, (1 : ℚ)/4⟩ : Entry), ⟨2, (1 : ℚ)/8⟩, ⟨3, (3 : ℚ)/16⟩, ⟨4, (3 : ℚ)/8⟩, ⟨5, (1 : ℚ)/16⟩]
      [(⟨4, 5, ((3919105 : ℚ)/8957952), (0 : ℚ)⟩ : PairRec), (⟨1, 5, (-(690509 : ℚ)/1492992), (0 : ℚ)⟩ : PairRec), (⟨1, 2, ((1903565 : ℚ)/8957952), (0 : ℚ)⟩ : PairRec), (⟨2, 5, ((783821 : ℚ)/8957952), (0 : ℚ)⟩ : PairRec)] 1 = 0 := by
    norm_num [warnCount, applyValue1, add_value, FLT_EPSILON]
  have hne : ¬((([(⟨4, 5, ((5 : ℚ)/2), (0 : ℚ)⟩ : PairRec), (⟨1, 5, (-(11 : ℚ)/2), (0 : ℚ)⟩ : PairRec), (⟨1, 2, (15 : ℚ), (0 : ℚ)⟩ : PairRec), (⟨2, 5, ((1 : ℚ)/8), (0 : ℚ)⟩ : PairRec)] : Store)).isEmpty = true) := by simp
  show generalPath _ 1 _ = _
  simp only [generalPath]
  rw [hpin, capCellLoop_eval, if_neg hne]
  show (⟨cleanupSmall 1 [(⟨4, 5, ((3919105 : ℚ)/8957952), (0 : ℚ)⟩ : PairRec), (⟨1, 5, (-(690509 : ℚ)/1492992), (0 : ℚ)⟩ : PairRec), (⟨1, 2, ((1903565 : ℚ)/8957952), (0 : ℚ)⟩ : PairRec), (⟨2, 5, ((783821 : ℚ)/8957952), (0 : ℚ)⟩ : PairRec)], 25,
      warnCount [(⟨1, (1 : ℚ)/4⟩ : Entry), ⟨2, (1 : ℚ)/8⟩, ⟨3, (3 : ℚ)/16⟩, ⟨4, (3 : ℚ)/8⟩, ⟨5, (1 : ℚ)/16⟩]
        (cleanupSmall 1 [(⟨4, 5, ((3919105 : ℚ)/8957952), (0 : ℚ)⟩ : PairRec), (⟨1, 5, (-(690509 : ℚ)/1492992), (0 : ℚ)⟩ : PairRec), (⟨1, 2, ((1903565 : ℚ)/8957952), (0 : ℚ)⟩ : PairRec), (⟨2, 5, ((783821 : ℚ)/8957952), (0 : ℚ)⟩ : PairRec)]) 1⟩ : NormResult) = _
  rw [hclean, hwarn]

/-- C4 counterexample: on this cell the limiting loop of
`PhaseField::NormalizeIncrementsSR` performs 25 iterations, one more than
the claimed bound of 24: the source's cap check `number_of_iterations > 24`
allows a 25th pass after the 24th. -/
theorem C4_counterexample :
    24 < (normalizeNode [(⟨1, (1 : ℚ)/4⟩ : Entry), ⟨2, (1 : ℚ)/8⟩, ⟨3, (3 : ℚ)/16⟩, ⟨4, (3 : ℚ)/8⟩, ⟨5, (1 : ℚ)/16⟩] 1
      [(⟨4, 5, ((5 : ℚ)/2), (0 : ℚ)⟩ : PairRec), (⟨1, 5, (-(11 : ℚ)/2), (0 : ℚ)⟩ : PairRec), (⟨1, 2, (15 : ℚ), (0 : ℚ)⟩ : PairRec), (⟨2, 5, ((1 : ℚ)/8), (0 : ℚ)⟩ : PairRec)]).iters := by
  rw [capCellNorm_eval]
  norm_num

/-- C5 counterexample: a cell with four mutually conflicting pairwise
increments that cannot all be satisfied: the clamp loop stops only at the
iteration cap, yet the plausibility check emits no warning at all for the
cell (the claim demands exactly one). -/
theorem C5_counterexample :
    (normalizeNode [(⟨1, (1 : ℚ)/4⟩ : Entry), ⟨2, (1 : ℚ)/8⟩, ⟨3, (3 : ℚ)/16⟩, ⟨4, (3 : ℚ)/8⟩, ⟨5, (1 : ℚ)/16⟩] 1
      [(⟨4, 5, ((5 : ℚ)/2), (0 : ℚ)⟩ : PairRec), (⟨1, 5, (-(11 : ℚ)/2), (0 : ℚ)⟩ : PairRec), (⟨1, 2, (15 : ℚ), (0 : ℚ)⟩ : PairRec), (⟨2, 5, ((1 : ℚ)/8), (0 : ℚ)⟩ : PairRec)]).iters = 25 ∧
    (normalizeNode [(⟨1, (1 : ℚ)/4⟩ : Entry), ⟨2, (1 : ℚ)/8⟩, ⟨3, (3 : ℚ)/16⟩, ⟨4, (3 : ℚ)/8⟩, ⟨5, (1 : ℚ)/16⟩] 1
      [(⟨4, 5, ((5 : ℚ)/2), (0 : ℚ)⟩ : PairRec), (⟨1, 5, (-(11 : ℚ)/2), (0 : ℚ)⟩ : PairRec), (⟨1, 2, (15 : ℚ), (0 : ℚ)⟩ : PairRec), (⟨2, 5, ((1 : ℚ)/8), (0 : ℚ)⟩ : PairRec)]).warns = 0 := by
  rw [capCellNorm_eval]
  exact ⟨rfl, rfl⟩

/-- C4 (amended): the iterative limiting loop always terminates, in at
most 25 passes: it exits when no record needed further scaling, and the
cap check `number_of_iterations > 24` stops it during the 25th pass at
the latest. -/
theorem C4_amended_pass_bound (fields : NodePF) (dt : ℚ) (s : Store) :
    (normalizeNode fields dt s).iters ≤ 25 := by
  match s with
  | [] => simp [normalizeNode]
  | [r] => simp [normalizeNode]
  | r1 :: r2 :: t =>
      show (generalPath fields dt (r1 :: r2 :: t)).iters ≤ 25
      simp only [generalPath]
      by_cases h : (eraseZeroRecords (pinOutOfBounds fields (r1 :: r2 :: t))).isEmpty = true
      · simp [h]
      · simp only [h, Bool.false_eq_true, if_false]
        have := limitLoop_iters_le fields dt 24
          (eraseZeroRecords (pinOutOfBounds fields (r1 :: r2 :: t)))
        exact this

/-- C5 (amended): normalization is a total function that never aborts:
the clamp loop stops within 25 passes for every cell and store; on the
multi-pair path the number of emitted warnings equals the number of
regions the plausibility check finds outside the tolerance band — which
may be zero or more than one, also when the iteration cap was hit — and
it is zero when the store was emptied before the loop. -/
theorem C5_amended_warning_count (fields : NodePF) (dt : ℚ) (s : Store)
    (h : 2 ≤ s.length) :
    (normalizeNode fields dt s).iters ≤ 25 ∧
    (((normalizeNode fields dt s).store = [] ∧ (normalizeNode fields dt s).warns = 0) ∨
      (normalizeNode fields dt s).warns
        = warnCount fields (normalizeNode fields dt s).store dt) := by
  match s with
  | [] => simp at h
  | [r] => simp at h
  | r1 :: r2 :: t =>
      refine ⟨C4_amended_pass_bound fields dt (r1 :: r2 :: t), ?_⟩
      show ((generalPath fields dt (r1 :: r2 :: t)).store = [] ∧
          (generalPath fields dt (r1 :: r2 :: t)).warns = 0) ∨
        (generalPath fields dt (r1 :: r2 :: t)).warns
          = warnCount fields (generalPath fields dt (r1 :: r2 :: t)).store dt
      simp only [generalPath]
      by_cases hemp : (eraseZeroRecords (pinOutOfBounds fields (r1 :: r2 :: t))).isEmpty = true
      · left
        constructor
        · simp [hemp, List.isEmpty_iff.mp hemp]
        · simp [hemp]
      · right
        simp only [hemp, Bool.false_eq_true, if_false]

/-- Witness for C5 (amended) on a two-record store. -/
theorem C5_amended_warning_count_witness :
    (normalizeNode [⟨1, 1/2⟩, ⟨2, 1/2⟩] 1 [⟨1, 2, 1, 0⟩, ⟨2, 1, 1, 0⟩]).iters ≤ 25 ∧
    (((normalizeNode [⟨1, 1/2⟩, ⟨2, 1/2⟩] 1 [⟨1, 2, 1, 0⟩, ⟨2, 1, 1, 0⟩]).store = [] ∧
        (normalizeNode [⟨1, 1/2⟩, ⟨2, 1/2⟩] 1 [⟨1, 2, 1, 0⟩, ⟨2, 1, 1, 0⟩]).warns = 0) ∨
      (normalizeNode [⟨1, 1/2⟩, ⟨2, 1/2⟩] 1 [⟨1, 2, 1, 0⟩, ⟨2, 1, 1, 0⟩]).warns
        = warnCount [⟨1, 1/2⟩, ⟨2, 1/2⟩]
            (normalizeNode [⟨1, 1/2⟩, ⟨2, 1/2⟩] 1 [⟨1, 2, 1, 0⟩, ⟨2, 1, 1, 0⟩]).store 1) :=
  C5_amended_warning_count [⟨1, 1/2⟩, ⟨2, 1/2⟩] 1 [⟨1, 2, 1, 0⟩, ⟨2, 1, 1, 0⟩] (by norm_num)



theorem get_value_pair_left (A B : ℕ) (a b : ℚ) :
    get_value [⟨A, a⟩, ⟨B, b⟩] A = a := by
  simp [get_value]

theorem get_value_pair_right (A B : ℕ) (a b : ℚ) (hAB : A ≠ B) :
    get_value [⟨A, a⟩, ⟨B, b⟩] B = b := by
  simp [get_value, hAB]

theorem mergeNode_single_pair (A B : ℕ) (a b x y dt : ℚ) (hAB : A ≠ B) :
    mergeNode unitFactor [⟨A, a⟩, ⟨B, b⟩] [⟨A, B, x, y⟩] dt
      = if DBL_EPSILON ≤ |(x + y) * dt|
        then [⟨A, a + (x + y) * dt⟩, ⟨B, b + -((x + y) * dt)⟩]
        else [⟨A, a⟩, ⟨B, b⟩] := by
  by_cases h : DBL_EPSILON ≤ |(x + y) * dt|
  · simp [mergeNode, unitFactor, add_value, hAB, h]
  · simp [mergeNode, unitFactor, add_value, h]

/-- C1 (amended): on a two-region cell `{A: a, B: 1-a}` with `a ∈ [0,1]`
and a single-pair increment store, normalization followed by the merge
with the same time step keeps both regions' occupancy values inside
`[0,1]`, for every rate pair and every `dt > 0`.  The restriction to the
pair's own two regions is essential: the fast path bounds-checks only
`indexA`, so on a cell with a third region a single pair can drive
`indexB`'s value below `0`, and on multi-pair stores the general path
never limits the `value2` contributions (both failures of the original
claim are exhibited by the counterexample). -/
theorem C1_amended_two_region_bounds (A B : ℕ) (a v1 v2 dt : ℚ)
    (hAB : A ≠ B) (ha0 : 0 ≤ a) (ha1 : a ≤ 1) (hdt : 0 < dt) :
    (0 ≤ get_value (mergeNode unitFactor [⟨A, a⟩, ⟨B, 1 - a⟩]
        (normalizeNode [⟨A, a⟩, ⟨B, 1 - a⟩] dt [⟨A, B, v1, v2⟩]).store dt) A ∧
      get_value (mergeNode unitFactor [⟨A, a⟩, ⟨B, 1 - a⟩]
        (normalizeNode [⟨A, a⟩, ⟨B, 1 - a⟩] dt [⟨A, B, v1, v2⟩]).store dt) A ≤ 1) ∧
    (0 ≤ get_value (mergeNode unitFactor [⟨A, a⟩, ⟨B, 1 - a⟩]
        (normalizeNode [⟨A, a⟩, ⟨B, 1 - a⟩] dt [⟨A, B, v1, v2⟩]).store dt) B ∧
      get_value (mergeNode unitFactor [⟨A, a⟩, ⟨B, 1 - a⟩]
        (normalizeNode [⟨A, a⟩, ⟨B, 1 - a⟩] dt [⟨A, B, v1, v2⟩]).store dt) B ≤ 1) := by
  have hstore : (normalizeNode [⟨A, a⟩, ⟨B, 1 - a⟩] dt [⟨A, B, v1, v2⟩]).store
      = fastPath [⟨A, a⟩, ⟨B, 1 - a⟩] dt ⟨A, B, v1, v2⟩ := rfl
  rw [hstore]
  have hm0 : mergeNode unitFactor [⟨A, a⟩, ⟨B, 1 - a⟩] [] dt
      = [⟨A, a⟩, ⟨B, 1 - a⟩] := rfl
  have base : (0 ≤ get_value (mergeNode unitFactor [⟨A, a⟩, ⟨B, 1 - a⟩] [] dt) A ∧
      get_value (mergeNode unitFactor [⟨A, a⟩, ⟨B, 1 - a⟩] [] dt) A ≤ 1) ∧
      (0 ≤ get_value (mergeNode unitFactor [⟨A, a⟩, ⟨B, 1 - a⟩] [] dt) B ∧
      get_value (mergeNode unitFactor [⟨A, a⟩, ⟨B, 1 - a⟩] [] dt) B ≤ 1) := by
    rw [hm0, get_value_pair_left, get_value_pair_right A B a (1 - a) hAB]
    exact ⟨⟨ha0, ha1⟩, ⟨by linarith, by linarith⟩⟩
  have scaled : ∀ c : ℚ, 0 ≤ a + (v1 * c + v2 * c) * dt →
      a + (v1 * c + v2 * c) * dt ≤ 1 →
      (0 ≤ get_value (mergeNode unitFactor [⟨A, a⟩, ⟨B, 1 - a⟩]
          [⟨A, B, v1 * c, v2 * c⟩] dt) A ∧
        get_value (mergeNode unitFactor [⟨A, a⟩, ⟨B, 1 - a⟩]
          [⟨A, B, v1 * c, v2 * c⟩] dt) A ≤ 1) ∧
      (0 ≤ get_value (mergeNode unitFactor [⟨A, a⟩, ⟨B, 1 - a⟩]
          [⟨A, B, v1 * c, v2 * c⟩] dt) B ∧
        get_value (mergeNode unitFactor [⟨A, a⟩, ⟨B, 1 - a⟩]
          [⟨A, B, v1 * c, v2 * c⟩] dt) B ≤ 1) := by
    intro c hlo hhi
    rw [mergeNode_single_pair A B a (1 - a) (v1 * c) (v2 * c) dt hAB]
    by_cases hsk : DBL_EPSILON ≤ |(v1 * c + v2 * c) * dt|
    · rw [if_pos hsk, get_value_pair_left, get_value_pair_right A B _ _ hAB]
      exact ⟨⟨hlo, hhi⟩, ⟨by linarith, by linarith⟩⟩
    · rw [if_neg hsk, get_value_pair_left, get_value_pair_right A B _ _ hAB]
      exact ⟨⟨ha0, ha1⟩, ⟨by linarith, by linarith⟩⟩
  simp only [fastPath, get_value_pair_left, scaleStore, List.map]
  by_cases hcl : (a = 0 ∧ (v1 + v2) * dt < 0) ∨ (a = 1 ∧ 0 < (v1 + v2) * dt)
  · rw [if_pos hcl]
    exact base
  · rw [if_neg hcl]
    by_cases hneg : a + (v1 + v2) * dt < 0
    · rw [if_pos hneg]
      by_cases heps : DBL_EPSILON < -a / ((v1 + v2) * dt)
      · rw [if_pos heps]
        have hwne : (v1 + v2) * dt < 0 := by linarith
        have hval : a + (v1 * (-a / ((v1 + v2) * dt)) + v2 * (-a / ((v1 + v2) * dt))) * dt
            = 0 := by
          have hr : (v1 * (-a / ((v1 + v2) * dt)) + v2 * (-a / ((v1 + v2) * dt))) * dt
              = (v1 + v2) * dt * (-a / ((v1 + v2) * dt)) := by ring
          rw [hr, mul_comm, div_mul_cancel₀ _ (ne_of_lt hwne)]
          ring
        exact scaled (-a / ((v1 + v2) * dt)) (by rw [hval]) (by rw [hval]; norm_num)
      · rw [if_neg heps]
        exact base
    · rw [if_neg hneg]
      by_cases hhi : 1 < a + (v1 + v2) * dt
      · rw [if_pos hhi]
        have hwpos : 0 < (v1 + v2) * dt := by linarith
        by_cases heps : DBL_EPSILON < (1 - a) / ((v1 + v2) * dt)
        · rw [if_pos heps]
          have hval : a + (v1 * ((1 - a) / ((v1 + v2) * dt))
              + v2 * ((1 - a) / ((v1 + v2) * dt))) * dt = 1 := by
            have hr : (v1 * ((1 - a) / ((v1 + v2) * dt))
                + v2 * ((1 - a) / ((v1 + v2) * dt))) * dt
                = (v1 + v2) * dt * ((1 - a) / ((v1 + v2) * dt)) := by ring
            rw [hr, mul_comm, div_mul_cancel₀ _ (ne_of_gt hwpos)]
            ring
          exact scaled ((1 - a) / ((v1 + v2) * dt)) (by rw [hval]; norm_num) (by rw [hval])
        · rw [if_neg heps]
          exact base
      · rw [if_neg hhi]
        rw [if_pos (by norm_num [DBL_EPSILON] : DBL_EPSILON < (1 : ℚ))]
        have hval : a + (v1 * 1 + v2 * 1) * dt = a + (v1 + v2) * dt := by ring
        exact scaled 1 (by rw [hval]; linarith) (by rw [hval]; linarith)



theorem limitLoop_step_done (fields : NodePF) (dt : ℚ) (fuel : ℕ) (s s2 : Store)
    (h : limitIter fields dt s = (s2, false)) :
    limitLoop fields dt (fuel + 1) s = (s2, 1) := by
  simp [limitLoop, h]

/-- C1 counterexample: the original bounds claim fails on two independent
routes, both on three-region cells with all values in `[0,1]` (summing
to 1) and `dt = 1 > 0`.  (i) A two-pair store whose first record carries
a large `value2` contribution: normalization leaves the store unchanged
(no `value1` violation) and the merge drives region 1 to `551/100`, far
above `1`.  (ii) A SINGLE-pair store `(1,2, 9/10, 0)` on the cell
`{1: 1/5, 2: 1/10, 3: 7/10}`: the fast path bounds-checks only `indexA`,
computing the norm `8/9` against region 1's upper bound, and the merge
then drives region 2 to `-7/10`, below `0` — so the `[0,1]` guarantee
needs the cell to consist of the pair's two regions alone. -/
theorem C1_counterexample :
    1 < get_value (mergeNode unitFactor
      [(⟨1, (1 : ℚ)/2⟩ : Entry), ⟨2, (3 : ℚ)/10⟩, ⟨3, (1 : ℚ)/5⟩]
      (normalizeNode [(⟨1, (1 : ℚ)/2⟩ : Entry), ⟨2, (3 : ℚ)/10⟩, ⟨3, (1 : ℚ)/5⟩] 1
        [(⟨1, 2, ((1 : ℚ)/100), (5 : ℚ)⟩ : PairRec), (⟨2, 3, ((1 : ℚ)/100), (0 : ℚ)⟩ : PairRec)]).store
      1) 1 ∧
    get_value (mergeNode unitFactor
      [(⟨1, (1 : ℚ)/5⟩ : Entry), ⟨2, (1 : ℚ)/10⟩, ⟨3, (7 : ℚ)/10⟩]
      (normalizeNode [(⟨1, (1 : ℚ)/5⟩ : Entry), ⟨2, (1 : ℚ)/10⟩, ⟨3, (7 : ℚ)/10⟩] 1
        [(⟨1, 2, ((9 : ℚ)/10), (0 : ℚ)⟩ : PairRec)]).store
      1) 2 < 0 := by
  have hsecond : get_value (mergeNode unitFactor
      [(⟨1, (1 : ℚ)/5⟩ : Entry), ⟨2, (1 : ℚ)/10⟩, ⟨3, (7 : ℚ)/10⟩]
      (normalizeNode [(⟨1, (1 : ℚ)/5⟩ : Entry), ⟨2, (1 : ℚ)/10⟩, ⟨3, (7 : ℚ)/10⟩] 1
        [(⟨1, 2, ((9 : ℚ)/10), (0 : ℚ)⟩ : PairRec)]).store
      1) 2 < 0 := by
    have hstore3 : (normalizeNode [(⟨1, (1 : ℚ)/5⟩ : Entry), ⟨2, (1 : ℚ)/10⟩, ⟨3, (7 : ℚ)/10⟩] 1
        [(⟨1, 2, ((9 : ℚ)/10), (0 : ℚ)⟩ : PairRec)]).store
        = fastPath [(⟨1, (1 : ℚ)/5⟩ : Entry), ⟨2, (1 : ℚ)/10⟩, ⟨3, (7 : ℚ)/10⟩] 1
            ⟨1, 2, ((9 : ℚ)/10), (0 : ℚ)⟩ := rfl
    have hfast3 : fastPath [(⟨1, (1 : ℚ)/5⟩ : Entry), ⟨2, (1 : ℚ)/10⟩, ⟨3, (7 : ℚ)/10⟩] 1
        ⟨1, 2, ((9 : ℚ)/10), (0 : ℚ)⟩
        = [(⟨1, 2, ((4 : ℚ)/5), (0 : ℚ)⟩ : PairRec)] := by
      norm_num [fastPath, get_value, scaleStore, DBL_EPSILON]
    rw [hstore3, hfast3]
    norm_num [mergeNode, unitFactor, add_value, get_value, DBL_EPSILON,
      abs_of_pos, abs_of_neg]
  refine ⟨?_, hsecond⟩
  have hiter : limitIter [(⟨1, (1 : ℚ)/2⟩ : Entry), ⟨2, (3 : ℚ)/10⟩, ⟨3, (1 : ℚ)/5⟩] 1
      [(⟨1, 2, ((1 : ℚ)/100), (5 : ℚ)⟩ : PairRec), (⟨2, 3, ((1 : ℚ)/100), (0 : ℚ)⟩ : PairRec)]
      = ([(⟨1, 2, ((1 : ℚ)/100), (5 : ℚ)⟩ : PairRec), (⟨2, 3, ((1 : ℚ)/100), (0 : ℚ)⟩ : PairRec)],
         false) := by
    norm_num [limitIter, regionLimits, limitsEntry, posInc, negInc, applyLimits,
      getLimPos, getLimNeg, DBL_EPSILON]
  have hloop : limitLoop [(⟨1, (1 : ℚ)/2⟩ : Entry), ⟨2, (3 : ℚ)/10⟩, ⟨3, (1 : ℚ)/5⟩] 1 24
      [(⟨1, 2, ((1 : ℚ)/100), (5 : ℚ)⟩ : PairRec), (⟨2, 3, ((1 : ℚ)/100), (0 : ℚ)⟩ : PairRec)]
      = ([(⟨1, 2, ((1 : ℚ)/100), (5 : ℚ)⟩ : PairRec), (⟨2, 3, ((1 : ℚ)/100), (0 : ℚ)⟩ : PairRec)],
         1) := by
    show limitLoop _ 1 (23 + 1) _ = _
    exact limitLoop_step_done _ _ _ _ _ hiter
  have hpin : eraseZeroRecords (pinOutOfBounds
      [(⟨1, (1 : ℚ)/2⟩ : Entry), ⟨2, (3 : ℚ)/10⟩, ⟨3, (1 : ℚ)/5⟩]
      [(⟨1, 2, ((1 : ℚ)/100), (5 : ℚ)⟩ : PairRec), (⟨2, 3, ((1 : ℚ)/100), (0 : ℚ)⟩ : PairRec)])
      = [(⟨1, 2, ((1 : ℚ)/100), (5 : ℚ)⟩ : PairRec), (⟨2, 3, ((1 : ℚ)/100), (0 : ℚ)⟩ : PairRec)] := by
    norm_num [pinOutOfBounds, dPsiAlpha, get_asym1, get_asym2, set_sym_pair, eraseZeroRecords]
  have hclean : cleanupSmall 1
      [(⟨1, 2, ((1 : ℚ)/100), (5 : ℚ)⟩ : PairRec), (⟨2, 3, ((1 : ℚ)/100), (0 : ℚ)⟩ : PairRec)]
      = [(⟨1, 2, ((1 : ℚ)/100), (5 : ℚ)⟩ : PairRec), (⟨2, 3, ((1 : ℚ)/100), (0 : ℚ)⟩ : PairRec)] := by
    norm_num [cleanupSmall, DBL_EPSILON, abs_of_pos, abs_of_neg]
  have hwarn : warnCount [(⟨1, (1 : ℚ)/2⟩ : Entry), ⟨2, (3 : ℚ)/10⟩, ⟨3, (1 : ℚ)/5⟩]
      [(⟨1, 2, ((1 : ℚ)/100), (5 : ℚ)⟩ : PairRec), (⟨2, 3, ((1 : ℚ)/100), (0 : ℚ)⟩ : PairRec)]
      1 = 0 := by
    norm_num [warnCount, applyValue1, add_value, FLT_EPSILON]
  have hne : ¬(([(⟨1, 2, ((1 : ℚ)/100), (5 : ℚ)⟩ : PairRec),
      (⟨2, 3, ((1 : ℚ)/100), (0 : ℚ)⟩ : PairRec)] : Store).isEmpty = true) := by simp
  have hnorm : normalizeNode [(⟨1, (1 : ℚ)/2⟩ : Entry), ⟨2, (3 : ℚ)/10⟩, ⟨3, (1 : ℚ)/5⟩] 1
      [(⟨1, 2, ((1 : ℚ)/100), (5 : ℚ)⟩ : PairRec), (⟨2, 3, ((1 : ℚ)/100), (0 : ℚ)⟩ : PairRec)]
      = ⟨[(⟨1, 2, ((1 : ℚ)/100), (5 : ℚ)⟩ : PairRec), (⟨2, 3, ((1 : ℚ)/100), (0 : ℚ)⟩ : PairRec)],
         1, 0⟩ := by
    show generalPath _ 1 _ = _
    simp only [generalPath]
    rw [hpin, hloop, if_neg hne]
    show (⟨cleanupSmall 1 [(⟨1, 2, ((1 : ℚ)/100), (5 : ℚ)⟩ : PairRec),
        (⟨2, 3, ((1 : ℚ)/100), (0 : ℚ)⟩ : PairRec)], 1,
        warnCount [(⟨1, (1 : ℚ)/2⟩ : Entry), ⟨2, (3 : ℚ)/10⟩, ⟨3, (1 : ℚ)/5⟩]
          (cleanupSmall 1 [(⟨1, 2, ((1 : ℚ)/100), (5 : ℚ)⟩ : PairRec),
            (⟨2, 3, ((1 : ℚ)/100), (0 : ℚ)⟩ : PairRec)]) 1⟩ : NormResult) = _
    rw [hclean, hwarn]
  rw [hnorm]
  norm_num [mergeNode, unitFactor, add_value, get_value, DBL_EPSILON, abs_of_pos, abs_of_neg]



/-- One limiting pass leaves a single positive-rate record untouched when
the upper bound is not violated (two-region cell). -/
theorem c6IterPosCalm (A B : ℕ) (a v1 dt : ℚ) (hAB : A ≠ B) (hdt : 0 < dt)
    (ha0 : 0 < a) (ha1 : a < 1)
    (hvpos : 0 < v1) (hviol : ¬ 1 < a + v1 * dt) :
    limitIter [⟨A, a⟩, ⟨B, 1 - a⟩] dt [⟨A, B, v1, 0⟩] = ([⟨A, B, v1, 0⟩], false) := by
  have hBA : B ≠ A := Ne.symm hAB
  have hv1n : ¬ v1 < 0 := not_lt.mpr (le_of_lt hvpos)
  have hw : 0 < v1 * dt := mul_pos hvpos hdt
  simp only [limitIter, regionLimits, limitsEntry, posInc, negInc, applyLimits,
    getLimPos, getLimNeg, List.map, List.sum_cons, List.sum_nil, List.any,
    hAB, hBA, hv1n, hvpos, if_true, if_false, and_true, and_false, false_and, true_and,
    add_zero, zero_add, mul_zero, zero_mul, neg_zero, min_self, lt_self_iff_false,
    mul_one, one_mul]
  split_ifs with h1 h2 h3 h4 h5 h6 h7 h8 h9 h10
  all_goals (try simp_all only [min_self, lt_self_iff_false])
  all_goals first
    | rfl
    | trivial
    | (exfalso; linarith)
    | (simp [min_self])

/-- One limiting pass scales a single positive-rate record that violates
the upper bound down to the bound (two-region cell). -/
theorem c6IterPosViol (A B : ℕ) (a v1 dt : ℚ) (hAB : A ≠ B) (hdt : 0 < dt)
    (ha0 : 0 < a) (ha1 : a < 1)
    (hvpos : 0 < v1) (hviol : 1 < a + v1 * dt) :
    limitIter [⟨A, a⟩, ⟨B, 1 - a⟩] dt [⟨A, B, v1, 0⟩]
      = ([⟨A, B, v1 * ((1 - a) / (v1 * dt)), 0⟩], true) := by
  have hBA : B ≠ A := Ne.symm hAB
  have hv1n : ¬ v1 < 0 := not_lt.mpr (le_of_lt hvpos)
  have hw : 0 < v1 * dt := mul_pos hvpos hdt
  have hqlt : (1 - a) / (v1 * dt) < 1 := (div_lt_one hw).mpr (by linarith)
  have hmin : min 1 ((1 - a) / (v1 * dt)) = (1 - a) / (v1 * dt) :=
    min_eq_right (le_of_lt hqlt)
  simp only [limitIter, regionLimits, limitsEntry, posInc, negInc, applyLimits,
    getLimPos, getLimNeg, List.map, List.sum_cons, List.sum_nil, List.any,
    hAB, hBA, hv1n, hvpos, if_true, if_false, and_true, and_false, false_and, true_and,
    add_zero, zero_add, mul_zero, zero_mul, neg_zero, neg_mul, neg_div_neg_eq,
    mul_one, one_mul]
  split_ifs with h1 h2 h3 h4 h5 h6 h7 h8 h9 h10
  all_goals (try simp_all only [min_self, lt_self_iff_false, hmin, hqlt, if_true, if_false])
  all_goals first
    | rfl
    | trivial
    | (exfalso; linarith)
    | (simp [min_self, hmin, hqlt])

/-- The second limiting pass leaves the already-limited positive record
untouched: the scaled increment lands region `A` exactly on 1. -/
theorem c6IterPosSettled (A B : ℕ) (a v1 dt : ℚ) (hAB : A ≠ B) (hdt : 0 < dt)
    (ha0 : 0 < a) (ha1 : a < 1) (hvpos : 0 < v1) :
    limitIter [⟨A, a⟩, ⟨B, 1 - a⟩] dt [⟨A, B, v1 * ((1 - a) / (v1 * dt)), 0⟩]
      = ([⟨A, B, v1 * ((1 - a) / (v1 * dt)), 0⟩], false) := by
  have hBA : B ≠ A := Ne.symm hAB
  have hw : 0 < v1 * dt := mul_pos hvpos hdt
  have hq0 : 0 < (1 - a) / (v1 * dt) := div_pos (by linarith) hw
  have hvq : 0 < v1 * ((1 - a) / (v1 * dt)) := mul_pos hvpos hq0
  have hvqn : ¬ v1 * ((1 - a) / (v1 * dt)) < 0 := not_lt.mpr (le_of_lt hvq)
  have hkey : v1 * ((1 - a) / (v1 * dt)) * dt = 1 - a := by
    have hr : v1 * ((1 - a) / (v1 * dt)) * dt = (1 - a) / (v1 * dt) * (v1 * dt) := by ring
    rw [hr, div_mul_cancel₀ _ (ne_of_gt hw)]
  have hs1 : a + (1 - a) = 1 := by ring
  have hs2 : 1 - a + -(1 - a) = 0 := by ring
  simp only [limitIter, regionLimits, limitsEntry, posInc, negInc, applyLimits,
    getLimPos, getLimNeg, List.map, List.sum_cons, List.sum_nil, List.any,
    hAB, hBA, hvq, hvqn, if_true, if_false, and_true, and_false, false_and, true_and,
    add_zero, zero_add, mul_zero, zero_mul, neg_zero, neg_mul,
    hkey, hs1, hs2, lt_self_iff_false, min_self, mul_one, one_mul]
  first
    | simp
    | (split_ifs with h1 h2 h3 h4 h5 h6
       all_goals (try simp_all only [min_self, lt_self_iff_false])
       all_goals first
         | rfl
         | trivial
         | (exfalso; linarith)
         | (simp [min_self]))

/-- One limiting pass leaves a single negative-rate record untouched when
the lower bound is not violated (two-region cell). -/
theorem c6IterNegCalm (A B : ℕ) (a v1 dt : ℚ) (hAB : A ≠ B) (hdt : 0 < dt)
    (ha0 : 0 < a) (ha1 : a < 1)
    (hvneg : v1 < 0) (hviol : ¬ a + v1 * dt < 0) :
    limitIter [⟨A, a⟩, ⟨B, 1 - a⟩] dt [⟨A, B, v1, 0⟩] = ([⟨A, B, v1, 0⟩], false) := by
  have hBA : B ≠ A := Ne.symm hAB
  have hv1n : ¬ 0 < v1 := not_lt.mpr (le_of_lt hvneg)
  have hw : v1 * dt < 0 := mul_neg_of_neg_of_pos hvneg hdt
  simp only [limitIter, regionLimits, limitsEntry, posInc, negInc, applyLimits,
    getLimPos, getLimNeg, List.map, List.sum_cons, List.sum_nil, List.any,
    hAB, hBA, hv1n, hvneg, if_true, if_false, and_true, and_false, false_and, true_and,
    add_zero, zero_add, mul_zero, zero_mul, neg_zero, min_self, lt_self_iff_false,
    mul_one, one_mul]
  split_ifs with h1 h2 h3 h4 h5 h6 h7 h8 h9 h10
  all_goals (try simp_all only [min_self, lt_self_iff_false])
  all_goals first
    | rfl
    | trivial
    | (exfalso; linarith)
    | (simp [min_self])

/-- One limiting pass scales a single negative-rate record that violates
the lower bound down to the bound (two-region cell). -/
theorem c6IterNegViol (A B : ℕ) (a v1 dt : ℚ) (hAB : A ≠ B) (hdt : 0 < dt)
    (ha0 : 0 < a) (ha1 : a < 1)
    (hvneg : v1 < 0) (hviol : a + v1 * dt < 0) :
    limitIter [⟨A, a⟩, ⟨B, 1 - a⟩] dt [⟨A, B, v1, 0⟩]
      = ([⟨A, B, v1 * (-(a / (v1 * dt))), 0⟩], true) := by
  have hBA : B ≠ A := Ne.symm hAB
  have hv1n : ¬ 0 < v1 := not_lt.mpr (le_of_lt hvneg)
  have hw : v1 * dt < 0 := mul_neg_of_neg_of_pos hvneg hdt
  have hq0 : 0 < -(a / (v1 * dt)) := by
    have : a / (v1 * dt) < 0 := div_neg_of_pos_of_neg ha0 hw
    linarith
  have hqlt : -(a / (v1 * dt)) < 1 := by
    have h1 : a / (-(v1 * dt)) < 1 := (div_lt_one (by linarith)).mpr (by linarith)
    rwa [div_neg] at h1
  have hmin : min 1 (-(a / (v1 * dt))) = -(a / (v1 * dt)) := min_eq_right (le_of_lt hqlt)
  have hnum : 1 - (1 - a) = a := by ring
  simp only [limitIter, regionLimits, limitsEntry, posInc, negInc, applyLimits,
    getLimPos, getLimNeg, List.map, List.sum_cons, List.sum_nil, List.any,
    hAB, hBA, hv1n, hvneg, if_true, if_false, and_true, and_false, false_and, true_and,
    add_zero, zero_add, mul_zero, zero_mul, neg_zero, neg_mul, neg_div, div_neg,
    hnum, mul_one, one_mul]
  split_ifs with h1 h2 h3 h4 h5 h6 h7 h8 h9 h10
  all_goals (try simp_all only [min_self, lt_self_iff_false, hmin, hqlt, if_true, if_false])
  all_goals first
    | rfl
    | trivial
    | (exfalso; linarith)
    | (simp [min_self, hmin, hqlt])

/-- The second limiting pass leaves the already-limited negative record
untouched: the scaled increment lands region `A` exactly on 0. -/
theorem c6IterNegSettled (A B : ℕ) (a v1 dt : ℚ) (hAB : A ≠ B) (hdt : 0 < dt)
    (ha0 : 0 < a) (ha1 : a < 1) (hvneg : v1 < 0) :
    limitIter [⟨A, a⟩, ⟨B, 1 - a⟩] dt [⟨A, B, v1 * (-(a / (v1 * dt))), 0⟩]
      = ([⟨A, B, v1 * (-(a / (v1 * dt))), 0⟩], false) := by
  have hBA : B ≠ A := Ne.symm hAB
  have hw : v1 * dt < 0 := mul_neg_of_neg_of_pos hvneg hdt
  have hq0 : 0 < -(a / (v1 * dt)) := by
    have : a / (v1 * dt) < 0 := div_neg_of_pos_of_neg ha0 hw
    linarith
  have hvq : v1 * (-(a / (v1 * dt))) < 0 := mul_neg_of_neg_of_pos hvneg hq0
  have hvqn : ¬ 0 < v1 * (-(a / (v1 * dt))) := not_lt.mpr (le_of_lt hvq)
  have hkey : v1 * (-(a / (v1 * dt))) * dt = -a := by
    have hr : v1 * (-(a / (v1 * dt))) * dt = -(a / (v1 * dt) * (v1 * dt)) := by ring
    rw [hr, div_mul_cancel₀ _ (ne_of_lt hw)]
  have hs1 : a + -a = 0 := by ring
  have hs2 : 1 - a + - -a = 1 := by ring
  simp only [limitIter, regionLimits, limitsEntry, posInc, negInc, applyLimits,
    getLimPos, getLimNeg, List.map, List.sum_cons, List.sum_nil, List.any,
    hAB, hBA, hvq, hvqn, if_true, if_false, and_true, and_false, false_and, true_and,
    add_zero, zero_add, mul_zero, zero_mul, neg_zero, neg_mul, neg_neg,
    hkey, hs1, hs2, lt_self_iff_false, min_self, mul_one, one_mul]
  first
    | simp
    | (split_ifs with h1 h2 h3 h4 h5 h6
       all_goals (try simp_all only [min_self, lt_self_iff_false])
       all_goals first
         | rfl
         | trivial
         | (exfalso; linarith)
         | (simp [min_self]))



/-- The out-of-bounds pre-pass leaves a two-region cell's single-pair
store untouched when neither region sits at a bound. -/
theorem c6Pin (A B : ℕ) (a v1 v2 : ℚ) (hAB : A ≠ B) (ha0 : 0 < a) (ha1 : a < 1) :
    pinOutOfBounds [⟨A, a⟩, ⟨B, 1 - a⟩] [⟨A, B, v1, v2⟩] = [⟨A, B, v1, v2⟩] := by
  have ha0' : a ≠ 0 := ne_of_gt ha0
  have ha1' : a ≠ 1 := ne_of_lt ha1
  have hb0' : 1 - a ≠ 0 := by intro h; exact ha1' (by linarith)
  have hb1' : 1 - a ≠ 1 := by intro h; exact ha0' (by linarith)
  simp [pinOutOfBounds, dPsiAlpha, get_asym1, get_asym2, hAB, Ne.symm hAB,
    ha0', ha1', hb0', hb1']

/-- C6 (amended): on a two-region cell `{A: a, B: 1-a}` whose regions sit
strictly inside the bounds (by more than machine epsilon), with a
single-pair store whose second contribution is zero and whose rate obeys
`DBL_EPSILON < |v1*dt| ≤ 1`, the single-pair fast path and the general
iterative algorithm produce identical scaled stores.  The restriction to
the pair's own two regions is essential, as is `value2 = 0`: on a cell
with a third region the fast path bounds-checks only `indexA` while the
general limiter also limits by `indexB`'s endpoint, and a non-zero
`value2` is scaled by the fast path but never limited by the general
path (both divergences are exhibited by the counterexample). -/
theorem C6_amended_fast_general_agree (A B : ℕ) (a v1 dt : ℚ) (hAB : A ≠ B) (hdt : 0 < dt)
    (haL : DBL_EPSILON < a) (haU : DBL_EPSILON < 1 - a)
    (hsL : DBL_EPSILON < |v1 * dt|) (hsU : |v1 * dt| ≤ 1) :
    fastPath [⟨A, a⟩, ⟨B, 1 - a⟩] dt ⟨A, B, v1, 0⟩
      = (generalPath [⟨A, a⟩, ⟨B, 1 - a⟩] dt [⟨A, B, v1, 0⟩]).store := by
  have heps0 : (0 : ℚ) < DBL_EPSILON := by norm_num [DBL_EPSILON]
  have ha0 : 0 < a := lt_trans heps0 haL
  have ha1 : a < 1 := by linarith [lt_trans heps0 haU]
  have ha0' : a ≠ 0 := ne_of_gt ha0
  have ha1' : a ≠ 1 := ne_of_lt ha1
  have hvne : v1 ≠ 0 := by
    intro h
    rw [h, zero_mul, abs_zero] at hsL
    linarith
  have hprep : eraseZeroRecords (pinOutOfBounds [⟨A, a⟩, ⟨B, 1 - a⟩] [⟨A, B, v1, 0⟩])
      = [⟨A, B, v1, 0⟩] := by
    rw [c6Pin A B a v1 0 hAB ha0 ha1]
    simp [eraseZeroRecords, hvne]
  have hne : ¬(([(⟨A, B, v1, 0⟩ : PairRec)] : Store).isEmpty = true) := by simp
  rcases lt_trichotomy v1 0 with hv | hv | hv
  · -- negative rate
    have hw : v1 * dt < 0 := mul_neg_of_neg_of_pos hv hdt
    have hwabs : |v1 * dt| = -(v1 * dt) := abs_of_neg hw
    by_cases hviol : a + v1 * dt < 0
    · -- lower bound violated: both paths scale to land A on 0
      have hq0 : 0 < -(a / (v1 * dt)) := by
        have : a / (v1 * dt) < 0 := div_neg_of_pos_of_neg ha0 hw
        linarith
      have hkey : v1 * (-(a / (v1 * dt))) * dt = -a := by
        have hr : v1 * (-(a / (v1 * dt))) * dt = -(a / (v1 * dt) * (v1 * dt)) := by ring
        rw [hr, div_mul_cancel₀ _ (ne_of_lt hw)]
      have hloop : limitLoop [⟨A, a⟩, ⟨B, 1 - a⟩] dt 24 [⟨A, B, v1, 0⟩]
          = ([⟨A, B, v1 * (-(a / (v1 * dt))), 0⟩], 2) := by
        have h23 : limitLoop [⟨A, a⟩, ⟨B, 1 - a⟩] dt 23
            [⟨A, B, v1 * (-(a / (v1 * dt))), 0⟩]
            = ([⟨A, B, v1 * (-(a / (v1 * dt))), 0⟩], 1) := by
          show limitLoop _ _ (22 + 1) _ = _
          exact limitLoop_step_done _ _ _ _ _
            (c6IterNegSettled A B a v1 dt hAB hdt ha0 ha1 hv)
        show limitLoop _ _ (23 + 1) _ = _
        rw [limitLoop_step_true _ _ _ _ _
          (c6IterNegViol A B a v1 dt hAB hdt ha0 ha1 hv hviol), h23]
      have hc : DBL_EPSILON ≤ |v1 * (-(a / (v1 * dt))) * dt| := by
        rw [hkey, abs_neg, abs_of_pos ha0]
        exact le_of_lt haL
      have hkey2 : v1 * (a / (v1 * dt)) * dt = a := by
        have hr : v1 * (a / (v1 * dt)) * dt = a / (v1 * dt) * (v1 * dt) := by ring
        rw [hr, div_mul_cancel₀ _ (ne_of_lt hw)]
      have hc2 : DBL_EPSILON ≤ |v1 * (a / (v1 * dt)) * dt| := by
        rw [hkey2, abs_of_pos ha0]
        exact le_of_lt haL
      have hclean : cleanupSmall dt [(⟨A, B, v1 * (-(a / (v1 * dt))), 0⟩ : PairRec)]
          = [⟨A, B, v1 * (-(a / (v1 * dt))), 0⟩] := by
        simp [cleanupSmall, hc, hc2]
      have hgen : (generalPath [⟨A, a⟩, ⟨B, 1 - a⟩] dt [⟨A, B, v1, 0⟩]).store
          = [⟨A, B, v1 * (-(a / (v1 * dt))), 0⟩] := by
        simp only [generalPath]
        rw [hprep, hloop, if_neg hne]
        show cleanupSmall dt [(⟨A, B, v1 * (-(a / (v1 * dt))), 0⟩ : PairRec)] = _
        rw [hclean]
      have hnorm_big : DBL_EPSILON < -(a / (v1 * dt)) := by
        have hia : a ≤ -(a / (v1 * dt)) := by
          have h2 : a ≤ a / (-(v1 * dt)) := by
            rw [le_div_iff (by linarith : (0 : ℚ) < -(v1 * dt))]
            nlinarith [hwabs, hsU]
          rwa [div_neg] at h2
        linarith
      rw [hgen]
      simp only [fastPath, get_value_pair_left, scaleStore, List.map, add_zero, neg_div]
      rw [if_neg (by
        push_neg
        constructor
        · intro h; exact absurd h ha0'
        · intro h; exact absurd h ha1')]
      rw [if_pos hviol, if_pos hnorm_big]
      simp
    · -- no violation: both paths keep the record
      have hloop : limitLoop [⟨A, a⟩, ⟨B, 1 - a⟩] dt 24 [⟨A, B, v1, 0⟩]
          = ([⟨A, B, v1, 0⟩], 1) := by
        show limitLoop _ _ (23 + 1) _ = _
        exact limitLoop_step_done _ _ _ _ _
          (c6IterNegCalm A B a v1 dt hAB hdt ha0 ha1 hv hviol)
      have hc : DBL_EPSILON ≤ |v1 * dt| := le_of_lt hsL
      have hclean : cleanupSmall dt [(⟨A, B, v1, 0⟩ : PairRec)] = [⟨A, B, v1, 0⟩] := by
        simp [cleanupSmall, hc]
      have hgen : (generalPath [⟨A, a⟩, ⟨B, 1 - a⟩] dt [⟨A, B, v1, 0⟩]).store
          = [⟨A, B, v1, 0⟩] := by
        simp only [generalPath]
        rw [hprep, hloop, if_neg hne]
        show cleanupSmall dt [(⟨A, B, v1, 0⟩ : PairRec)] = _
        rw [hclean]
      rw [hgen]
      simp only [fastPath, get_value_pair_left, scaleStore, List.map, add_zero]
      rw [if_neg (by
        push_neg
        constructor
        · intro h; exact absurd h ha0'
        · intro h; exact absurd h ha1')]
      rw [if_neg hviol, if_neg (by nlinarith : ¬ 1 < a + v1 * dt)]
      rw [if_pos (by norm_num [DBL_EPSILON] : DBL_EPSILON < (1 : ℚ))]
      simp
  · exact absurd hv hvne
  · -- positive rate
    have hw : 0 < v1 * dt := mul_pos hv hdt
    have hwabs : |v1 * dt| = v1 * dt := abs_of_pos hw
    by_cases hviol : 1 < a + v1 * dt
    · -- upper bound violated: both paths scale to land A on 1
      have hq0 : 0 < (1 - a) / (v1 * dt) := div_pos (by linarith) hw
      have hkey : v1 * ((1 - a) / (v1 * dt)) * dt = 1 - a := by
        have hr : v1 * ((1 - a) / (v1 * dt)) * dt = (1 - a) / (v1 * dt) * (v1 * dt) := by
          ring
        rw [hr, div_mul_cancel₀ _ (ne_of_gt hw)]
      have hloop : limitLoop [⟨A, a⟩, ⟨B, 1 - a⟩] dt 24 [⟨A, B, v1, 0⟩]
          = ([⟨A, B, v1 * ((1 - a) / (v1 * dt)), 0⟩], 2) := by
        have h23 : limitLoop [⟨A, a⟩, ⟨B, 1 - a⟩] dt 23
            [⟨A, B, v1 * ((1 - a) / (v1 * dt)), 0⟩]
            = ([⟨A, B, v1 * ((1 - a) / (v1 * dt)), 0⟩], 1) := by
          show limitLoop _ _ (22 + 1) _ = _
          exact limitLoop_step_done _ _ _ _ _
            (c6IterPosSettled A B a v1 dt hAB hdt ha0 ha1 hv)
        show limitLoop _ _ (23 + 1) _ = _
        rw [limitLoop_step_true _ _ _ _ _
          (c6IterPosViol A B a v1 dt hAB hdt ha0 ha1 hv hviol), h23]
      have hc : DBL_EPSILON ≤ |v1 * ((1 - a) / (v1 * dt)) * dt| := by
        rw [hkey, abs_of_pos (by linarith)]
        exact le_of_lt haU
      have hclean : cleanupSmall dt [(⟨A, B, v1 * ((1 - a) / (v1 * dt)), 0⟩ : PairRec)]
          = [⟨A, B, v1 * ((1 - a) / (v1 * dt)), 0⟩] := by
        simp [cleanupSmall, hc]
      have hgen : (generalPath [⟨A, a⟩, ⟨B, 1 - a⟩] dt [⟨A, B, v1, 0⟩]).store
          = [⟨A, B, v1 * ((1 - a) / (v1 * dt)), 0⟩] := by
        simp only [generalPath]
        rw [hprep, hloop, if_neg hne]
        show cleanupSmall dt [(⟨A, B, v1 * ((1 - a) / (v1 * dt)), 0⟩ : PairRec)] = _
        rw [hclean]
      have hnorm_big : DBL_EPSILON < (1 - a) / (v1 * dt) := by
        have hia : 1 - a ≤ (1 - a) / (v1 * dt) := by
          rw [le_div_iff hw]
          nlinarith [hwabs, hsU]
        linarith
      rw [hgen]
      simp only [fastPath, get_value_pair_left, scaleStore, List.map, add_zero]
      rw [if_neg (by
        push_neg
        constructor
        · intro h; exact absurd h ha0'
        · intro h; exact absurd h ha1')]
      rw [if_neg (by nlinarith : ¬ a + v1 * dt < 0), if_pos hviol, if_pos hnorm_big]
      simp
    · -- no violation: both paths keep the record
      have hloop : limitLoop [⟨A, a⟩, ⟨B, 1 - a⟩] dt 24 [⟨A, B, v1, 0⟩]
          = ([⟨A, B, v1, 0⟩], 1) := by
        show limitLoop _ _ (23 + 1) _ = _
        exact limitLoop_step_done _ _ _ _ _
          (c6IterPosCalm A B a v1 dt hAB hdt ha0 ha1 hv hviol)
      have hc : DBL_EPSILON ≤ |v1 * dt| := le_of_lt hsL
      have hclean : cleanupSmall dt [(⟨A, B, v1, 0⟩ : PairRec)] = [⟨A, B, v1, 0⟩] := by
        simp [cleanupSmall, hc]
      have hgen : (generalPath [⟨A, a⟩, ⟨B, 1 - a⟩] dt [⟨A, B, v1, 0⟩]).store
          = [⟨A, B, v1, 0⟩] := by
        simp only [generalPath]
        rw [hprep, hloop, if_neg hne]
        show cleanupSmall dt [(⟨A, B, v1, 0⟩ : PairRec)] = _
        rw [hclean]
      rw [hgen]
      simp only [fastPath, get_value_pair_left, scaleStore, List.map, add_zero]
      rw [if_neg (by
        push_neg
        constructor
        · intro h; exact absurd h ha0'
        · intro h; exact absurd h ha1')]
      rw [if_neg (by nlinarith : ¬ a + v1 * dt < 0), if_neg hviol]
      rw [if_pos (by norm_num [DBL_EPSILON] : DBL_EPSILON < (1 : ℚ))]
      simp



/-- C6 counterexample: the original fast-path/general-path equivalence
fails on two independent routes.  (i) On the two-region cell
`{1: 3/5, 2: 2/5}` with the single pair `(1,2)` carrying only a `value2`
contribution, the fast path scales and keeps the record while the general
algorithm erases it (it collects and limits only `value1`).  (ii) On the
three-region cell `{1: 1/5, 2: 1/10, 3: 7/10}` with the single pair
`(1,2, 9/10, 0)` and `dt = 1`, the fast path bounds-checks only `indexA`
and yields `value1 = 4/5`, while the general limiter also limits by
`indexB`'s lower-bound factor `1/9` and yields `value1 = 1/10` — so the
equivalence needs the cell to consist of the pair's two regions alone. -/
theorem C6_counterexample :
    (fastPath [(⟨1, (3 : ℚ)/5⟩ : Entry), ⟨2, (2 : ℚ)/5⟩] (1/2) ⟨1, 2, 0, 2⟩
      ≠ (generalPath [(⟨1, (3 : ℚ)/5⟩ : Entry), ⟨2, (2 : ℚ)/5⟩] (1/2)
          [(⟨1, 2, (0 : ℚ), (2 : ℚ)⟩ : PairRec)]).store) ∧
    (fastPath [(⟨1, (1 : ℚ)/5⟩ : Entry), ⟨2, (1 : ℚ)/10⟩, ⟨3, (7 : ℚ)/10⟩] 1
        ⟨1, 2, ((9 : ℚ)/10), (0 : ℚ)⟩
      ≠ (generalPath [(⟨1, (1 : ℚ)/5⟩ : Entry), ⟨2, (1 : ℚ)/10⟩, ⟨3, (7 : ℚ)/10⟩] 1
          [(⟨1, 2, ((9 : ℚ)/10), (0 : ℚ)⟩ : PairRec)]).store) := by
  have hsecond : fastPath [(⟨1, (1 : ℚ)/5⟩ : Entry), ⟨2, (1 : ℚ)/10⟩, ⟨3, (7 : ℚ)/10⟩] 1
        ⟨1, 2, ((9 : ℚ)/10), (0 : ℚ)⟩
      ≠ (generalPath [(⟨1, (1 : ℚ)/5⟩ : Entry), ⟨2, (1 : ℚ)/10⟩, ⟨3, (7 : ℚ)/10⟩] 1
          [(⟨1, 2, ((9 : ℚ)/10), (0 : ℚ)⟩ : PairRec)]).store := by
    have hfastm : fastPath [(⟨1, (1 : ℚ)/5⟩ : Entry), ⟨2, (1 : ℚ)/10⟩, ⟨3, (7 : ℚ)/10⟩] 1
        ⟨1, 2, ((9 : ℚ)/10), (0 : ℚ)⟩
        = [(⟨1, 2, ((4 : ℚ)/5), (0 : ℚ)⟩ : PairRec)] := by
      norm_num [fastPath, get_value, scaleStore, DBL_EPSILON]
    have hpinm : eraseZeroRecords (pinOutOfBounds
        [(⟨1, (1 : ℚ)/5⟩ : Entry), ⟨2, (1 : ℚ)/10⟩, ⟨3, (7 : ℚ)/10⟩]
        [(⟨1, 2, ((9 : ℚ)/10), (0 : ℚ)⟩ : PairRec)])
        = [(⟨1, 2, ((9 : ℚ)/10), (0 : ℚ)⟩ : PairRec)] := by
      norm_num [pinOutOfBounds, dPsiAlpha, get_asym1, get_asym2, set_sym_pair,
        eraseZeroRecords]
    have hiterA : limitIter [(⟨1, (1 : ℚ)/5⟩ : Entry), ⟨2, (1 : ℚ)/10⟩, ⟨3, (7 : ℚ)/10⟩] 1
        [(⟨1, 2, ((9 : ℚ)/10), (0 : ℚ)⟩ : PairRec)]
        = ([(⟨1, 2, ((1 : ℚ)/10), (0 : ℚ)⟩ : PairRec)], true) := by
      norm_num [limitIter, regionLimits, limitsEntry, posInc, negInc, applyLimits,
        getLimPos, getLimNeg, min_def]
    have hiterB : limitIter [(⟨1, (1 : ℚ)/5⟩ : Entry), ⟨2, (1 : ℚ)/10⟩, ⟨3, (7 : ℚ)/10⟩] 1
        [(⟨1, 2, ((1 : ℚ)/10), (0 : ℚ)⟩ : PairRec)]
        = ([(⟨1, 2, ((1 : ℚ)/10), (0 : ℚ)⟩ : PairRec)], false) := by
      norm_num [limitIter, regionLimits, limitsEntry, posInc, negInc, applyLimits,
        getLimPos, getLimNeg, min_def]
    have hloopB : limitLoop [(⟨1, (1 : ℚ)/5⟩ : Entry), ⟨2, (1 : ℚ)/10⟩, ⟨3, (7 : ℚ)/10⟩] 1 23
        [(⟨1, 2, ((1 : ℚ)/10), (0 : ℚ)⟩ : PairRec)]
        = ([(⟨1, 2, ((1 : ℚ)/10), (0 : ℚ)⟩ : PairRec)], 1) := by
      show limitLoop _ 1 (22 + 1) _ = _
      exact limitLoop_step_done _ _ _ _ _ hiterB
    have hloopA : limitLoop [(⟨1, (1 : ℚ)/5⟩ : Entry), ⟨2, (1 : ℚ)/10⟩, ⟨3, (7 : ℚ)/10⟩] 1 24
        [(⟨1, 2, ((9 : ℚ)/10), (0 : ℚ)⟩ : PairRec)]
        = ([(⟨1, 2, ((1 : ℚ)/10), (0 : ℚ)⟩ : PairRec)], 2) := by
      show limitLoop _ 1 (23 + 1) _ = _
      rw [limitLoop_step_true _ _ _ _ _ hiterA, hloopB]
    have hcleanm : cleanupSmall 1 [(⟨1, 2, ((1 : ℚ)/10), (0 : ℚ)⟩ : PairRec)]
        = [(⟨1, 2, ((1 : ℚ)/10), (0 : ℚ)⟩ : PairRec)] := by
      norm_num [cleanupSmall, DBL_EPSILON, abs_of_pos, abs_of_neg]
    have hnem : ¬(([(⟨1, 2, ((9 : ℚ)/10), (0 : ℚ)⟩ : PairRec)] : Store)).isEmpty = true := by
      simp
    have hgenm : (generalPath [(⟨1, (1 : ℚ)/5⟩ : Entry), ⟨2, (1 : ℚ)/10⟩, ⟨3, (7 : ℚ)/10⟩] 1
        [(⟨1, 2, ((9 : ℚ)/10), (0 : ℚ)⟩ : PairRec)]).store
        = [(⟨1, 2, ((1 : ℚ)/10), (0 : ℚ)⟩ : PairRec)] := by
      simp only [generalPath]
      rw [hpinm, hloopA, if_neg hnem]
      show cleanupSmall 1 [(⟨1, 2, ((1 : ℚ)/10), (0 : ℚ)⟩ : PairRec)] = _
      rw [hcleanm]
    rw [hfastm, hgenm]
    simp only [ne_eq, List.cons.injEq, PairRec.mk.injEq, eq_self_iff_true,
      and_true, true_and]
    norm_num
  refine ⟨?_, hsecond⟩
  have hfast : fastPath [(⟨1, (3 : ℚ)/5⟩ : Entry), ⟨2, (2 : ℚ)/5⟩] (1/2) ⟨1, 2, 0, 2⟩
      = [(⟨1, 2, (0 : ℚ), (4 : ℚ)/5⟩ : PairRec)] := by
    norm_num [fastPath, get_value, scaleStore, DBL_EPSILON]
  have hprep : eraseZeroRecords (pinOutOfBounds [(⟨1, (3 : ℚ)/5⟩ : Entry), ⟨2, (2 : ℚ)/5⟩]
      [(⟨1, 2, (0 : ℚ), (2 : ℚ)⟩ : PairRec)]) = [(⟨1, 2, (0 : ℚ), (2 : ℚ)⟩ : PairRec)] := by
    norm_num [pinOutOfBounds, dPsiAlpha, get_asym1, get_asym2, set_sym_pair, eraseZeroRecords]
  have hiter : limitIter [(⟨1, (3 : ℚ)/5⟩ : Entry), ⟨2, (2 : ℚ)/5⟩] (1/2)
      [(⟨1, 2, (0 : ℚ), (2 : ℚ)⟩ : PairRec)]
      = ([(⟨1, 2, (0 : ℚ), (2 : ℚ)⟩ : PairRec)], false) := by
    norm_num [limitIter, regionLimits, limitsEntry, posInc, negInc, applyLimits,
      getLimPos, getLimNeg]
  have hloop : limitLoop [(⟨1, (3 : ℚ)/5⟩ : Entry), ⟨2, (2 : ℚ)/5⟩] (1/2) 24
      [(⟨1, 2, (0 : ℚ), (2 : ℚ)⟩ : PairRec)]
      = ([(⟨1, 2, (0 : ℚ), (2 : ℚ)⟩ : PairRec)], 1) := by
    show limitLoop _ _ (23 + 1) _ = _
    exact limitLoop_step_done _ _ _ _ _ hiter
  have hclean : cleanupSmall (1/2) [(⟨1, 2, (0 : ℚ), (2 : ℚ)⟩ : PairRec)] = [] := by
    norm_num [cleanupSmall, DBL_EPSILON]
  have hne : ¬(([(⟨1, 2, (0 : ℚ), (2 : ℚ)⟩ : PairRec)] : Store)).isEmpty = true := by simp
  have hgen : (generalPath [(⟨1, (3 : ℚ)/5⟩ : Entry), ⟨2, (2 : ℚ)/5⟩] (1/2)
      [(⟨1, 2, (0 : ℚ), (2 : ℚ)⟩ : PairRec)]).store = [] := by
    simp only [generalPath]
    rw [hprep, hloop, if_neg hne]
    show cleanupSmall (1/2) [(⟨1, 2, (0 : ℚ), (2 : ℚ)⟩ : PairRec)] = _
    rw [hclean]
  rw [hfast, hgen]
  simp

/-- Total occupancy of a fold of `nodePlus` over a list of nodes. -/
theorem nodeSum_foldl_nodePlus :
    ∀ (children : List NodePF) (acc : NodePF),
      nodeSum (children.foldl nodePlus acc)
        = nodeSum acc + (children.map nodeSum).sum := by
  intro children
  induction children with
  | nil => intro acc; simp [nodeSum]
  | cons c t ih =>
      intro acc
      show nodeSum (t.foldl nodePlus (nodePlus acc c)) = _
      rw [ih, nodeSum_nodePlus]
      simp [List.sum_cons]
      ring

/-- Total occupancy of the interpolated sample: the weighted sum of the
sampled nodes' totals. -/
theorem nodeSum_interpNode (parts : List (ℚ × NodePF)) :
    nodeSum (interpNode parts)
      = (parts.map (fun p => p.1 * nodeSum p.2)).sum := by
  suffices h : ∀ (ps : List (ℚ × NodePF)) (acc : NodePF),
      nodeSum (ps.foldl (fun acc p => nodePlus acc (scaleNode p.2 p.1)) acc)
        = nodeSum acc + (ps.map (fun p => p.1 * nodeSum p.2)).sum by
    have := h parts []
    simpa [interpNode, nodeSum] using this
  intro ps
  induction ps with
  | nil => intro acc; simp
  | cons p t ih =>
      intro acc
      show nodeSum (t.foldl _ (nodePlus acc (scaleNode p.2 p.1))) = _
      rw [ih, nodeSum_nodePlus, nodeSum_scaleNode]
      simp [List.sum_cons]
      ring

/-- If every node of a list totals 1, the map-sum of the totals is the
list's length. -/
theorem sum_map_nodeSum_of_ones :
    ∀ (children : List NodePF), (∀ n ∈ children, nodeSum n = 1) →
      (children.map nodeSum).sum = (children.length : ℚ) := by
  intro children
  induction children with
  | nil => intro h; simp
  | cons c t ih =>
      intro h
      simp only [List.map_cons, List.sum_cons, List.length_cons]
      rw [h c (by simp), ih (fun n hn => h n (by simp [hn]))]
      push_cast
      ring


/-- If every sampled node totals 1, the weighted total reduces to the sum
of the weights. -/
theorem sum_map_weights_of_ones :
    ∀ (parts : List (ℚ × NodePF)), (∀ p ∈ parts, nodeSum p.2 = 1) →
      (parts.map (fun p => p.1 * nodeSum p.2)).sum = (parts.map Prod.fst).sum := by
  intro parts
  induction parts with
  | nil => intro h; simp
  | cons p t ih =>
      intro h
      simp only [List.map_cons, List.sum_cons]
      rw [h p (by simp), ih (fun q hq => h q (by simp [hq]))]
      ring

/-- C7: the dual-resolution coupling is a convex combination of valid
nodes: a `Refine` sample whose sampled coarse nodes all equal the pure
single-region node `{g: 1}` reproduces that node exactly (`Coarsen` skips
bulk cells, leaving the coarse node untouched); and both the `Coarsen`
average and the `Refine` sample of nodes whose occupancies sum to 1 again
sum to 1 exactly before finalize, hence within one machine epsilon per
entry after finalize. -/
theorem C7_convex_coupling (g : ℕ) (w1 w2 norm : ℚ) (parts : List (ℚ × NodePF))
    (children : List NodePF) (hw : w1 + w2 = 1)
    (hparts : ∀ p ∈ parts, nodeSum p.2 = 1)
    (hwsum : (parts.map Prod.fst).sum = 1)
    (hchild : ∀ n ∈ children, nodeSum n = 1)
    (hnorm : norm * children.length = 1) :
    refineChild [(w1, [⟨g, 1⟩]), (w2, [⟨g, 1⟩])] = [⟨g, 1⟩] ∧
    |nodeSum (coarsenNode children norm) - 1|
      ≤ (scaleNode (children.foldl nodePlus []) norm).length * DBL_EPSILON ∧
    |nodeSum (refineChild parts) - 1| ≤ (interpNode parts).length * DBL_EPSILON := by
  refine ⟨?_, ?_, ?_⟩
  · show finalize (interpNode [(w1, [⟨g, 1⟩]), (w2, [⟨g, 1⟩])]) = _
    have hi : interpNode [(w1, [⟨g, 1⟩]), (w2, [⟨g, 1⟩])] = [⟨g, w1 + w2⟩] := by
      simp [interpNode, nodePlus, scaleNode, add_value, one_mul]
    rw [hi, hw]
    norm_num [finalize, DBL_EPSILON]
  · have hsum : nodeSum (scaleNode (children.foldl nodePlus []) norm) = 1 := by
      rw [nodeSum_scaleNode, nodeSum_foldl_nodePlus]
      rw [sum_map_nodeSum_of_ones children hchild]
      simpa [nodeSum] using hnorm
    have := abs_nodeSum_finalize_sub (scaleNode (children.foldl nodePlus []) norm)
    rw [hsum] at this
    exact this
  · have hsum : nodeSum (interpNode parts) = 1 := by
      rw [nodeSum_interpNode]
      rw [sum_map_weights_of_ones parts hparts, hwsum]
    have := abs_nodeSum_finalize_sub (interpNode parts)
    rw [hsum] at this
    exact this



/-- Witness for C1 (amended) at `A=1`, `B=2`, `a=3/5`, `v1=2`, `v2=0`,
`dt=1/2`. -/
theorem C1_amended_two_region_bounds_witness :
    (0 ≤ get_value (mergeNode unitFactor [⟨1, 3/5⟩, ⟨2, 1 - 3/5⟩]
        (normalizeNode [⟨1, 3/5⟩, ⟨2, 1 - 3/5⟩] (1/2) [⟨1, 2, 2, 0⟩]).store (1/2)) 1 ∧
      get_value (mergeNode unitFactor [⟨1, 3/5⟩, ⟨2, 1 - 3/5⟩]
        (normalizeNode [⟨1, 3/5⟩, ⟨2, 1 - 3/5⟩] (1/2) [⟨1, 2, 2, 0⟩]).store (1/2)) 1 ≤ 1) ∧
    (0 ≤ get_value (mergeNode unitFactor [⟨1, 3/5⟩, ⟨2, 1 - 3/5⟩]
        (normalizeNode [⟨1, 3/5⟩, ⟨2, 1 - 3/5⟩] (1/2) [⟨1, 2, 2, 0⟩]).store (1/2)) 2 ∧
      get_value (mergeNode unitFactor [⟨1, 3/5⟩, ⟨2, 1 - 3/5⟩]
        (normalizeNode [⟨1, 3/5⟩, ⟨2, 1 - 3/5⟩] (1/2) [⟨1, 2, 2, 0⟩]).store (1/2)) 2 ≤ 1) :=
  C1_amended_two_region_bounds 1 2 (3/5) 2 0 (1/2)
    (by norm_num) (by norm_num) (by norm_num) (by norm_num)

/-- Witness for C6 (amended) at `A=1`, `B=2`, `a=1/2`, `v1=1`, `dt=1/2`. -/
theorem C6_amended_fast_general_agree_witness :
    fastPath [⟨1, 1/2⟩, ⟨2, 1 - 1/2⟩] (1/2) ⟨1, 2, 1, 0⟩
      = (generalPath [⟨1, 1/2⟩, ⟨2, 1 - 1/2⟩] (1/2) [⟨1, 2, 1, 0⟩]).store :=
  C6_amended_fast_general_agree 1 2 (1/2) 1 (1/2) (by norm_num) (by norm_num)
    (by norm_num [DBL_EPSILON]) (by norm_num [DBL_EPSILON])
    (by
      have habs : |(1 : ℚ) * (1/2)| = 1/2 := by
        rw [one_mul, abs_of_pos] <;> norm_num
      rw [habs]
      norm_num [DBL_EPSILON])
    (by
      have habs : |(1 : ℚ) * (1/2)| = 1/2 := by
        rw [one_mul, abs_of_pos] <;> norm_num
      rw [habs]
      norm_num)

/-- Witness for C7 on a two-node coarse neighborhood and two fine
children. -/
theorem C7_convex_coupling_witness :
    refineChild [((3 : ℚ)/4, [⟨3, 1⟩]), ((1 : ℚ)/4, [⟨3, 1⟩])] = [⟨3, 1⟩] ∧
    |nodeSum (coarsenNode [[⟨1, 1/2⟩, ⟨2, 1/2⟩], [⟨2, (1 : ℚ)⟩]] (1/2)) - 1|
      ≤ (scaleNode ([[(⟨1, 1/2⟩ : Entry), ⟨2, 1/2⟩], [⟨2, (1 : ℚ)⟩]].foldl nodePlus []) (1/2)).length
          * DBL_EPSILON ∧
    |nodeSum (refineChild [((3 : ℚ)/4, [⟨1, 1/2⟩, ⟨2, 1/2⟩]), ((1 : ℚ)/4, [⟨2, (1 : ℚ)⟩])]) - 1|
      ≤ (interpNode [((3 : ℚ)/4, [⟨1, 1/2⟩, ⟨2, 1/2⟩]), ((1 : ℚ)/4, [⟨2, (1 : ℚ)⟩])]).length
          * DBL_EPSILON :=
  C7_convex_coupling 3 (3/4) (1/4) (1/2)
    [((3 : ℚ)/4, [⟨1, 1/2⟩, ⟨2, 1/2⟩]), ((1 : ℚ)/4, [⟨2, (1 : ℚ)⟩])]
    [[⟨1, 1/2⟩, ⟨2, 1/2⟩], [⟨2, (1 : ℚ)⟩]]
    (by norm_num)
    (by
      intro p hp
      simp only [List.mem_cons, List.not_mem_nil, or_false] at hp
      rcases hp with h | h <;> subst h <;> norm_num [nodeSum])
    (by norm_num)
    (by
      intro n hn
      simp only [List.mem_cons, List.not_mem_nil, or_false] at hn
      rcases hn with h | h <;> subst h <;> norm_num [nodeSum])
    (by norm_num)

end OpenPhase
